import Mathlib

/-!
# Pod eviction admitter

A shallow embedding of `pkg/virt-api/webhooks/validating-webhook/admitters/pod-eviction-admitter.go`
(the functions `Admit`, `markVMI`, `denied` and `isVirtLauncher`) together with the
properties of the admission decision that are proved about it.

The two remote clients of the admitter are passed in as records of functions over an
abstract store state `σ`; every `Patch` the admitter issues and every VMI fetch it makes is
also recorded in the result, so that "no Patch is issued" is a statement about a list.
-/

namespace admitters

/-! ## Data model -/

/-- Go `error` value returned by a client call: `text` is what `err.Error()` prints,
`reason` is the API status reason (`"NotFound"` when the object is absent). -/
structure Error where
  reason : String
  text : String
deriving DecidableEq, Repr

/-- The `virtv1.EvictionStrategy` type, a Go string type. -/
abbrev EvictionStrategy := String

/-- Modelled from the spec: the constant `virtv1.EvictionStrategyNone`, declared outside src/. -/
def EvictionStrategyNone : EvictionStrategy := "None"

/-- Modelled from the spec: the constant `virtv1.EvictionStrategyLiveMigrate`, declared outside src/. -/
def EvictionStrategyLiveMigrate : EvictionStrategy := "LiveMigrate"

/-- Modelled from the spec: the constant `virtv1.EvictionStrategyLiveMigrateIfPossible`,
declared outside src/. -/
def EvictionStrategyLiveMigrateIfPossible : EvictionStrategy := "LiveMigrateIfPossible"

/-- Modelled from the spec: the constant `virtv1.EvictionStrategyExternal`, declared outside src/. -/
def EvictionStrategyExternal : EvictionStrategy := "External"

/-- Modelled from the spec: the constant `virtv1.AppLabel`, the label that marks a pod as a
VM-hosting workload; declared outside src/. -/
def AppLabel : String := "kubevirt.io"

/-- Modelled from the spec: the constant `virtv1.DomainAnnotation`, the annotation linking a
pod to its VMI by name; declared outside src/. -/
def DomainAnnotation : String := "kubevirt.io/domain"

/-- The constant `metav1.DryRunAll`. -/
def DryRunAll : String := "All"

/-- The constant `types.JSONPatchType`. -/
def JSONPatchType : String := "application/json-patch+json"

/-- The constant `http.StatusTooManyRequests`. -/
def StatusTooManyRequests : Nat := 429

/-- The fields of `k8scorev1.Pod` that the admitter reads. A Go map is an association list
read with `List.lookup`. -/
structure Pod where
  Namespace : String
  Name : String
  Labels : List (String × String)
  Annotations : List (String × String)
  /-- The field `Spec.NodeName`. -/
  NodeName : String
deriving DecidableEq, Repr

/-- The fields of `virtv1.VirtualMachineInstance` that the admitter reads or patches. -/
structure VirtualMachineInstance where
  Namespace : String
  Name : String
  /-- The field `Spec.EvictionStrategy`, a pointer: `none` is nil. -/
  EvictionStrategy : Option EvictionStrategy
  /-- The field `Status.NodeName`. -/
  NodeName : String
  /-- The field `Status.EvacuationNodeName`. -/
  EvacuationNodeName : String
  /-- The spec's attribute `migratable` (bool, computed elsewhere). -/
  Migratable : Bool
deriving DecidableEq, Repr

/-- The part of `virtconfig.ClusterConfig` read here: the cluster-wide default strategy. -/
structure ClusterConfig where
  EvictionStrategy : Option EvictionStrategy
deriving DecidableEq, Repr

/-- The type `metav1.PatchOptions`. -/
structure PatchOptions where
  DryRun : List String
deriving DecidableEq, Repr

/-- One call of `VirtualMachineInstance(namespace).Patch(ctx, name, pt, data, options)`. -/
structure PatchCall where
  Namespace : String
  Name : String
  pt : String
  data : String
  options : PatchOptions
deriving DecidableEq, Repr

/-- The fields of `admissionv1.AdmissionRequest` that the admitter reads. -/
structure AdmissionRequest where
  Namespace : String
  Name : String
  /-- The field `DryRun`, a `*bool`: `none` is nil. -/
  DryRun : Option Bool
deriving DecidableEq, Repr

/-- The type `admissionv1.AdmissionReview`. -/
structure AdmissionReview where
  Request : AdmissionRequest
deriving DecidableEq, Repr

/-- The type `metav1.Status`, with the two fields `denied` fills. -/
structure Status where
  Message : String
  Code : Nat
deriving DecidableEq, Repr

/-- The type `admissionv1.AdmissionResponse`; `Result` is a pointer, `none` is nil. -/
structure AdmissionResponse where
  Allowed : Bool
  Result : Option Status
deriving DecidableEq, Repr

/-- The pod client `kubeClient.CoreV1().Pods(namespace)` over a store state `σ`. -/
structure KubeClient (σ : Type) where
  Get : σ → String → String → Except Error Pod

/-- The VMI client `virtClient.VirtualMachineInstance(namespace)` over a store state `σ`.
`Patch` takes namespace, name, patch type, data and options, and returns the Go result
pair together with the store state after the call. -/
structure KubevirtClient (σ : Type) where
  Get : σ → String → String → Except Error VirtualMachineInstance
  Patch : σ → String → String → String → String → PatchOptions →
    Except Error VirtualMachineInstance × σ

/-- The struct `PodEvictionAdmitter`. -/
structure PodEvictionAdmitter (σ : Type) where
  clusterConfig : ClusterConfig
  kubeClient : KubeClient σ
  virtClient : KubevirtClient σ

/-- What a call leaves behind: its return value, the store state after it, the Patch
calls it issued, oldest first, and the VMI fetches it made, as (namespace, name), oldest
first. -/
structure Effect (σ : Type) (α : Type) where
  value : α
  store : σ
  patches : List PatchCall
  fetches : List (String × String)

/-! ## Helpers declared outside src/ -/

/-- Modelled from the spec: `vmi.IsMigratable()`, declared outside src/; the spec's
`migratable` attribute of the VMI. -/
def IsMigratable (vmi : VirtualMachineInstance) : Bool :=
  vmi.Migratable

/-- Modelled from the spec: `vmi.IsMarkedForEviction()`, declared outside src/;
`markedForEviction` is derived from the presence of `evacuationNodeName`. -/
def IsMarkedForEviction (vmi : VirtualMachineInstance) : Bool :=
  vmi.EvacuationNodeName != ""

/-- Modelled from the spec: `migrations.VMIEvictionStrategy`, declared outside src/; the
explicit per-VMI setting, falling back to the cluster-wide default, and nil when neither
is set. -/
def VMIEvictionStrategy (clusterConfig : ClusterConfig) (vmi : VirtualMachineInstance) :
    Option EvictionStrategy :=
  match vmi.EvictionStrategy with
  | some s => some s
  | none => clusterConfig.EvictionStrategy

/-- The function `validating_webhooks.NewPassingAdmissionResponse`. -/
def NewPassingAdmissionResponse : AdmissionResponse :=
  { Allowed := true, Result := none }

/-! ## The source file -/

/-- The function `denied`. -/
def denied (message : String) : AdmissionResponse :=
  { Allowed := false,
    Result := some { Message := message, Code := StatusTooManyRequests } }

/-- The function `isVirtLauncher`: a missing label reads as the empty string. -/
def isVirtLauncher (pod : Pod) : Bool :=
  (pod.Labels.lookup AppLabel).getD "" == "virt-launcher"

/-- The JSON patch body `markVMI` formats with `fmt.Sprintf`. -/
def patchData (nodeName : String) : String :=
  "[\x7b \"op\": \"add\", \"path\": \"/status/evacuationNodeName\", \"value\": \"" ++
    nodeName ++ "\" \x7d]"

/-- The error of a Go result pair `(value, err)`: `none` is a nil error. -/
def errOf {α : Type} : Except Error α → Option Error
  | .error err => some err
  | .ok _ => none

/-- The method `markVMI`: one Patch call, whose error is returned. -/
def markVMI {σ : Type} (admitter : PodEvictionAdmitter σ) (s : σ)
    (vmiNamespace vmiName nodeName : String) (dryRun : Bool) : Effect σ (Option Error) :=
  let data := patchData nodeName
  let patchOptions : PatchOptions :=
    if dryRun then { DryRun := [DryRunAll] } else { DryRun := [] }
  let r := admitter.virtClient.Patch s vmiNamespace vmiName JSONPatchType data patchOptions
  { value := errOf r.1, store := r.2,
    patches := [{ Namespace := vmiNamespace, Name := vmiName, pt := JSONPatchType,
                  data := data, options := patchOptions }],
    fetches := [] }

/-- The `switch *evictionStrategy` block of `Admit`: `.error r` is the early `return r`,
`.ok b` is the value of `markForEviction` after the block. -/
def evictionSwitch (evictionStrategy : EvictionStrategy) (vmi : VirtualMachineInstance) :
    Except AdmissionResponse Bool :=
  if evictionStrategy = EvictionStrategyLiveMigrate then
    if !IsMigratable vmi then
      .error (denied ("VMI " ++ vmi.Name ++
        " is configured with an eviction strategy but is not live-migratable"))
    else .ok true
  else if evictionStrategy = EvictionStrategyLiveMigrateIfPossible then
    if IsMigratable vmi then .ok true else .ok false
  else if evictionStrategy = EvictionStrategyExternal then
    .ok true
  else .ok false

/-- The method `Admit`. -/
def Admit {σ : Type} (admitter : PodEvictionAdmitter σ) (s : σ) (ar : AdmissionReview) :
    Effect σ AdmissionResponse :=
  match admitter.kubeClient.Get s ar.Request.Namespace ar.Request.Name with
  | .error _ =>
    { value := NewPassingAdmissionResponse, store := s, patches := [], fetches := [] }
  | .ok pod =>
    if !isVirtLauncher pod then
      { value := NewPassingAdmissionResponse, store := s, patches := [], fetches := [] }
    else
      match pod.Annotations.lookup DomainAnnotation with
      | none =>
        { value := NewPassingAdmissionResponse, store := s, patches := [], fetches := [] }
      | some vmiName =>
        match admitter.virtClient.Get s ar.Request.Namespace vmiName with
        | .error err =>
          { value := denied ("kubevirt failed getting the vmi: " ++ err.text),
            store := s, patches := [], fetches := [(ar.Request.Namespace, vmiName)] }
        | .ok vmi =>
          match VMIEvictionStrategy admitter.clusterConfig vmi with
          | none =>
            { value := NewPassingAdmissionResponse, store := s, patches := [],
              fetches := [(ar.Request.Namespace, vmiName)] }
          | some evictionStrategy =>
            match evictionSwitch evictionStrategy vmi with
            | .error r =>
              { value := r, store := s, patches := [],
                fetches := [(ar.Request.Namespace, vmiName)] }
            | .ok markForEviction =>
              if markForEviction && !IsMarkedForEviction vmi && vmi.NodeName == pod.NodeName then
                let dryRun := ar.Request.DryRun.isSome && ar.Request.DryRun == some true
                let m := markVMI admitter s vmi.Namespace vmi.Name vmi.NodeName dryRun
                match m.value with
                | some err =>
                  { value := denied ("kubevirt failed marking the vmi for eviction: " ++ err.text),
                    store := m.store, patches := m.patches,
                    fetches := [(ar.Request.Namespace, vmiName)] }
                | none =>
                  { value := denied ("Eviction triggered evacuation of VMI \"" ++
                      vmi.Namespace ++ "/" ++ vmi.Name ++ "\""),
                    store := m.store, patches := m.patches,
                    fetches := [(ar.Request.Namespace, vmiName)] }
              else
                { value := NewPassingAdmissionResponse, store := s, patches := [],
                  fetches := [(ar.Request.Namespace, vmiName)] }

/-! ## An in-memory store

The API server behind the two clients is not part of the source file. The store below is
the in-memory fake of the spec's design notes: get-by-key on pods and VMIs, and a patch
limited to the `evacuationNodeName` field that persists nothing in dry-run mode. -/

/-- Modelled from the spec: the state of the workload store and of the VMI store. -/
structure MemStore where
  pods : List Pod
  vmis : List VirtualMachineInstance
deriving DecidableEq, Repr

/-- The error a store returns for an absent object. -/
def notFound (name : String) : Error :=
  { reason := "NotFound", text := name ++ " not found" }

/-- The error a store returns for a patch it cannot apply. -/
def badPatch : Error :=
  { reason := "BadRequest", text := "the patch is not a JSON patch of evacuationNodeName" }

/-- Modelled from the spec: fetch of a pod by `(namespace, name)`. -/
def MemStore.getPod (s : MemStore) (ns name : String) : Except Error Pod :=
  match s.pods.find? (fun p => p.Namespace == ns && p.Name == name) with
  | some p => .ok p
  | none => .error (notFound name)

/-- Modelled from the spec: fetch of a VMI by `(namespace, name)`. -/
def MemStore.getVMI (s : MemStore) (ns name : String) : Except Error VirtualMachineInstance :=
  match s.vmis.find? (fun v => v.Namespace == ns && v.Name == name) with
  | some v => .ok v
  | none => .error (notFound name)

/-- The text of a patch body before the node name. -/
def patchHead : List Char :=
  "[\x7b \"op\": \"add\", \"path\": \"/status/evacuationNodeName\", \"value\": \"".data

/-- The text of a patch body after the node name. -/
def patchTail : List Char :=
  "\" \x7d]".data

/-- A character that a JSON string literal holds verbatim: no quote, no backslash, no
control character. -/
def jsonPlain (c : Char) : Bool :=
  c != Char.ofNat 34 && c != Char.ofNat 92 && decide (32 ≤ c.toNat)

/-- Modelled from the spec: the value a JSON patch body writes to `evacuationNodeName`,
when the body is a single `add` on `/status/evacuationNodeName` whose value is a string
of verbatim characters; `none` for any other body. -/
def decodeEvacuationPatch (data : String) : Option String :=
  let body := data.data.drop patchHead.length
  let n := body.length - patchTail.length
  if data.data.take patchHead.length = patchHead ∧ patchTail.length ≤ body.length ∧
      body.drop n = patchTail ∧ (body.take n).all jsonPlain = true then
    some (String.mk (body.take n))
  else none

/-- Modelled from the spec: the store write, a partial update limited to the
`evacuationNodeName` field of the VMI `(ns, name)`. A dry-run patch is validated and
answered like any other but persists nothing. -/
def MemStore.patchVMI (s : MemStore) (ns name pt data : String) (options : PatchOptions) :
    Except Error VirtualMachineInstance × MemStore :=
  match s.vmis.find? (fun v => v.Namespace == ns && v.Name == name) with
  | none => (.error (notFound name), s)
  | some vmi =>
    if pt ≠ JSONPatchType then (.error badPatch, s)
    else
      match decodeEvacuationPatch data with
      | none => (.error badPatch, s)
      | some node =>
        let patched := { vmi with EvacuationNodeName := node }
        if options.DryRun.contains DryRunAll then (.ok patched, s)
        else
          (.ok patched,
            { s with vmis := s.vmis.map (fun v =>
                if v.Namespace == ns && v.Name == name then
                  { v with EvacuationNodeName := node }
                else v) })

/-- The admitter whose two clients are backed by the in-memory store. -/
def memAdmitter (clusterConfig : ClusterConfig) : PodEvictionAdmitter MemStore :=
  { clusterConfig := clusterConfig,
    kubeClient := { Get := MemStore.getPod },
    virtClient := { Get := MemStore.getVMI, Patch := MemStore.patchVMI } }

/-! ## Vocabulary of the properties -/

/-- The request's pod is a virt-launcher pod linked to a fetchable VMI: the pod fetch
returns `pod`, `pod` carries the virt-launcher label and the domain annotation, and the
fetch of the VMI the annotation names (in the request's namespace) returns `vmi`. -/
def Linked {σ : Type} (admitter : PodEvictionAdmitter σ) (s : σ) (ar : AdmissionReview)
    (pod : Pod) (vmi : VirtualMachineInstance) : Prop :=
  admitter.kubeClient.Get s ar.Request.Namespace ar.Request.Name = .ok pod ∧
  isVirtLauncher pod = true ∧
  ∃ vmiName, pod.Annotations.lookup DomainAnnotation = some vmiName ∧
    admitter.virtClient.Get s ar.Request.Namespace vmiName = .ok vmi

/-- A marking candidate: strategy LiveMigrate with a migratable VMI, LiveMigrateIfPossible
with a migratable VMI, or External. -/
def MarkingCandidate (evictionStrategy : EvictionStrategy) (vmi : VirtualMachineInstance) :
    Prop :=
  (evictionStrategy = EvictionStrategyLiveMigrate ∧ IsMigratable vmi = true) ∨
  (evictionStrategy = EvictionStrategyLiveMigrateIfPossible ∧ IsMigratable vmi = true) ∨
  evictionStrategy = EvictionStrategyExternal

/-- The verdict in the words of its characterisation: `Admit` denies exactly when the pod
was fetched, is a virt-launcher pod with a domain annotation, and either (i) the VMI fetch
failed, or (ii) the strategy is LiveMigrate and the VMI is not migratable, or (iii) the VMI
is a marking candidate that is not marked for eviction and whose node is the pod's node.
Neither the dry-run flag nor the Patch occurs in it. -/
def DeniesSpec {σ : Type} (admitter : PodEvictionAdmitter σ) (s : σ) (ar : AdmissionReview) :
    Prop :=
  ∃ pod, admitter.kubeClient.Get s ar.Request.Namespace ar.Request.Name = .ok pod ∧
    isVirtLauncher pod = true ∧
    ∃ vmiName, pod.Annotations.lookup DomainAnnotation = some vmiName ∧
      ((∃ e, admitter.virtClient.Get s ar.Request.Namespace vmiName = .error e) ∨
        ∃ vmi, admitter.virtClient.Get s ar.Request.Namespace vmiName = .ok vmi ∧
          ((VMIEvictionStrategy admitter.clusterConfig vmi = some EvictionStrategyLiveMigrate ∧
              IsMigratable vmi = false) ∨
            ∃ evictionStrategy,
              VMIEvictionStrategy admitter.clusterConfig vmi = some evictionStrategy ∧
              MarkingCandidate evictionStrategy vmi ∧
              IsMarkedForEviction vmi = false ∧
              vmi.NodeName = pod.NodeName))

/-! ## Fixtures -/

/-- The virt-launcher pod of the VMI `ns/vm1`, running on `node`. -/
def launcherPod (node : String) : Pod :=
  { Namespace := "ns", Name := "virt-launcher-vm1",
    Labels := [(AppLabel, "virt-launcher")],
    Annotations := [( DomainAnnotation, "vm1")],
    NodeName := node }

/-- The VMI `ns/vm1`. -/
def vm1 (strategy : EvictionStrategy) (migratable : Bool) (node evacuation : String) :
    VirtualMachineInstance :=
  { Namespace := "ns", Name := "vm1", EvictionStrategy := some strategy,
    NodeName := node, EvacuationNodeName := evacuation, Migratable := migratable }

/-- The eviction request for the pod of `ns/vm1`. -/
def evictVm1 (dryRun : Option Bool) : AdmissionReview :=
  { Request := { Namespace := "ns", Name := "virt-launcher-vm1", DryRun := dryRun } }

/-- A store holding one pod and one VMI. -/
def cluster (pod : Pod) (vmi : VirtualMachineInstance) : MemStore :=
  { pods := [pod], vmis := [vmi] }

/-- A cluster configuration without a default eviction strategy. -/
def noDefault : ClusterConfig :=
  { EvictionStrategy := none }

/-- An admitter over the in-memory store whose Patch always fails with `e`. -/
def patchFails (e : Error) (clusterConfig : ClusterConfig) : PodEvictionAdmitter MemStore :=
  { clusterConfig := clusterConfig,
    kubeClient := { Get := MemStore.getPod },
    virtClient := { Get := MemStore.getVMI, Patch := fun s _ _ _ _ _ => (.error e, s) } }

/-- An admitter over the in-memory store whose pod fetch always fails with `e`. -/
def podsUnreachable (e : Error) (clusterConfig : ClusterConfig) : PodEvictionAdmitter MemStore :=
  { clusterConfig := clusterConfig,
    kubeClient := { Get := fun _ _ _ => .error e },
    virtClient := { Get := MemStore.getVMI, Patch := MemStore.patchVMI } }

/-- A pod of namespace `ns` that carries another app label and no annotation. -/
def handlerPod : Pod :=
  { Namespace := "ns", Name := "virt-handler-x", Labels := [(AppLabel, "virt-handler")],
    Annotations := [], NodeName := "node-a" }

/-- A virt-launcher pod of namespace `ns` without the domain annotation. -/
def unlinkedPod : Pod :=
  { Namespace := "ns", Name := "virt-launcher-vm1", Labels := [(AppLabel, "virt-launcher")],
    Annotations := [], NodeName := "node-a" }

/-- The admitter as a call sees it when its two fetches were answered in the store state
`seen` and its Patch reaches the store later, after another call has written: both fetches
read `seen`, whatever the current state is, and the Patch applies to the current state. -/
def staleReads (seen : MemStore) (clusterConfig : ClusterConfig) :
    PodEvictionAdmitter MemStore :=
  { clusterConfig := clusterConfig,
    kubeClient := { Get := fun _ => seen.getPod },
    virtClient := { Get := fun _ => seen.getVMI, Patch := MemStore.patchVMI } }

/-! ## Lemmas -/

theorem evictionSwitch_candidate (evictionStrategy : EvictionStrategy)
    (vmi : VirtualMachineInstance) (h : MarkingCandidate evictionStrategy vmi) :
    evictionSwitch evictionStrategy vmi = .ok true := by
  rcases h with ⟨rfl, hm⟩ | ⟨rfl, hm⟩ | rfl <;>
    simp_all [evictionSwitch, EvictionStrategyLiveMigrate, EvictionStrategyLiveMigrateIfPossible,
      EvictionStrategyExternal]

theorem patchData_data (nodeName : String) :
    (patchData nodeName).data = patchHead ++ (nodeName.data ++ patchTail) := by
  simp [patchData, patchHead, patchTail, String.data_append]

theorem decodeEvacuationPatch_patchData (nodeName : String) :
    decodeEvacuationPatch (patchData nodeName) =
      if nodeName.data.all jsonPlain = true then some nodeName else none := by
  unfold decodeEvacuationPatch
  simp only [patchData_data]
  simp

theorem getVMI_key (s : MemStore) (ns name : String) (vmi : VirtualMachineInstance)
    (h : s.getVMI ns name = .ok vmi) : vmi.Namespace = ns ∧ vmi.Name = name := by
  unfold MemStore.getVMI at h
  split at h
  · rename_i v hv
    have hkey := List.find?_some hv
    simp at h
    subst h
    simpa using hkey
  · simp at h

theorem getVMI_find (s : MemStore) (ns name : String) (vmi : VirtualMachineInstance)
    (h : s.getVMI ns name = .ok vmi) :
    s.vmis.find? (fun v => v.Namespace == ns && v.Name == name) = some vmi := by
  unfold MemStore.getVMI at h
  split at h
  · rename_i v hv
    simp at h
    rw [hv, h]
  · simp at h

theorem patchVMI_dryRun (s : MemStore) (ns name pt data : String) :
    (s.patchVMI ns name pt data ⟨[DryRunAll]⟩).2 = s := by
  unfold MemStore.patchVMI
  split
  · rfl
  · split
    · rfl
    · split
      · rfl
      · simp

theorem find_after_mark (vmis : List VirtualMachineInstance) (ns name node : String)
    (vmi : VirtualMachineInstance)
    (hfind : vmis.find? (fun v => v.Namespace == ns && v.Name == name) = some vmi) :
    (vmis.map (fun v =>
        if v.Namespace == ns && v.Name == name then
          { v with EvacuationNodeName := node }
        else v)).find? (fun v => v.Namespace == ns && v.Name == name) =
      some { vmi with EvacuationNodeName := node } := by
  have hkey := List.find?_some hfind
  have hcomp : ((fun v : VirtualMachineInstance => v.Namespace == ns && v.Name == name) ∘
      fun v => if v.Namespace == ns && v.Name == name then
          { v with EvacuationNodeName := node }
        else v) = fun v => v.Namespace == ns && v.Name == name := by
    funext v
    by_cases hv : (v.Namespace == ns && v.Name == name) = true
    · simp only [Function.comp, hv, if_true]
    · simp only [Bool.not_eq_true] at hv
      simp [Function.comp, hv]
  rw [List.find?_map, hcomp, hfind]
  simp only [Option.map, hkey, if_true]

theorem patchVMI_persists (s : MemStore) (ns name node : String)
    (vmi : VirtualMachineInstance) (hget : s.getVMI ns name = .ok vmi)
    (hok : errOf (s.patchVMI ns name JSONPatchType (patchData node) ⟨[]⟩).1 = none) :
    (s.patchVMI ns name JSONPatchType (patchData node) ⟨[]⟩).2.getVMI ns name =
      .ok { vmi with EvacuationNodeName := node } ∧
    (s.patchVMI ns name JSONPatchType (patchData node) ⟨[]⟩).2.pods = s.pods := by
  have hfind := getVMI_find s ns name vmi hget
  by_cases hplain : node.data.all jsonPlain = true
  · have hstore : (s.patchVMI ns name JSONPatchType (patchData node) ⟨[]⟩).2 =
        { s with vmis := s.vmis.map (fun v =>
            if v.Namespace == ns && v.Name == name then
              { v with EvacuationNodeName := node }
            else v) } := by
      simp [MemStore.patchVMI, hfind, decodeEvacuationPatch_patchData, hplain]
    rw [hstore]
    refine ⟨?_, rfl⟩
    unfold MemStore.getVMI
    simp only []
    rw [find_after_mark s.vmis ns name node vmi hfind]
  · simp [MemStore.patchVMI, hfind, decodeEvacuationPatch_patchData, hplain, errOf] at hok

theorem Admit_marking {σ : Type} (admitter : PodEvictionAdmitter σ) (s : σ)
    (ar : AdmissionReview) (pod : Pod) (vmi : VirtualMachineInstance)
    (evictionStrategy : EvictionStrategy)
    (hlinked : Linked admitter s ar pod vmi)
    (hstrategy : VMIEvictionStrategy admitter.clusterConfig vmi = some evictionStrategy)
    (hcandidate : MarkingCandidate evictionStrategy vmi)
    (hunmarked : IsMarkedForEviction vmi = false)
    (hnode : vmi.NodeName = pod.NodeName) :
    (Admit admitter s ar).value =
      (match errOf (admitter.virtClient.Patch s vmi.Namespace vmi.Name JSONPatchType
          (patchData vmi.NodeName)
          ⟨if ar.Request.DryRun = some true then [DryRunAll] else []⟩).1 with
        | some err => denied ("kubevirt failed marking the vmi for eviction: " ++ err.text)
        | none => denied ("Eviction triggered evacuation of VMI \"" ++
            vmi.Namespace ++ "/" ++ vmi.Name ++ "\"")) ∧
    (Admit admitter s ar).store =
      (admitter.virtClient.Patch s vmi.Namespace vmi.Name JSONPatchType
          (patchData vmi.NodeName)
          ⟨if ar.Request.DryRun = some true then [DryRunAll] else []⟩).2 ∧
    (Admit admitter s ar).patches =
      [⟨vmi.Namespace, vmi.Name, JSONPatchType, patchData vmi.NodeName,
        ⟨if ar.Request.DryRun = some true then [DryRunAll] else []⟩⟩] := by
  obtain ⟨hpod, hlauncher, vmiName, hann, hvmi⟩ := hlinked
  have hswitch := evictionSwitch_candidate evictionStrategy vmi hcandidate
  obtain ⟨⟨ns, name, dryRun⟩⟩ := ar
  rcases dryRun with _ | _ | _ <;>
    (simp only [Admit, hpod, hlauncher, hann, hvmi, hstrategy, hswitch, hunmarked, hnode,
      markVMI]
     simp
     split <;> simp_all)

theorem Admit_guard_fails {σ : Type} (admitter : PodEvictionAdmitter σ) (s : σ)
    (ar : AdmissionReview) (pod : Pod) (vmi : VirtualMachineInstance)
    (evictionStrategy : EvictionStrategy)
    (hlinked : Linked admitter s ar pod vmi)
    (hstrategy : VMIEvictionStrategy admitter.clusterConfig vmi = some evictionStrategy)
    (hcandidate : MarkingCandidate evictionStrategy vmi)
    (hguard : IsMarkedForEviction vmi = true ∨ vmi.NodeName ≠ pod.NodeName) :
    (Admit admitter s ar).value = NewPassingAdmissionResponse ∧
    (Admit admitter s ar).store = s ∧
    (Admit admitter s ar).patches = [] := by
  obtain ⟨hpod, hlauncher, vmiName, hann, hvmi⟩ := hlinked
  have hswitch := evictionSwitch_candidate evictionStrategy vmi hcandidate
  rcases hguard with h | h <;>
    simp [Admit, hpod, hlauncher, hann, hvmi, hstrategy, hswitch, h]

theorem getPod_congr (s t : MemStore) (ns name : String) (h : t.pods = s.pods) :
    t.getPod ns name = s.getPod ns name := by
  unfold MemStore.getPod
  rw [h]

theorem evictionSwitch_other (evictionStrategy : EvictionStrategy)
    (vmi : VirtualMachineInstance) (hcandidate : ¬ MarkingCandidate evictionStrategy vmi)
    (hpolicy : ¬ (evictionStrategy = EvictionStrategyLiveMigrate ∧ IsMigratable vmi = false)) :
    evictionSwitch evictionStrategy vmi = .ok false := by
  unfold MarkingCandidate at hcandidate
  unfold evictionSwitch
  by_cases h1 : evictionStrategy = EvictionStrategyLiveMigrate
  · cases hm : IsMigratable vmi <;> simp_all
  · by_cases h2 : evictionStrategy = EvictionStrategyLiveMigrateIfPossible
    · cases hm : IsMigratable vmi <;> simp_all
    · by_cases h3 : evictionStrategy = EvictionStrategyExternal
      · simp_all
      · simp [h1, h2, h3]

theorem Admit_cases {σ : Type} (admitter : PodEvictionAdmitter σ) (s : σ)
    (ar : AdmissionReview) :
    ((Admit admitter s ar).value = NewPassingAdmissionResponse ∧
      (Admit admitter s ar).store = s ∧ (Admit admitter s ar).patches = [] ∧
      ¬ DeniesSpec admitter s ar) ∨
    (∃ pod vmiName e,
      admitter.kubeClient.Get s ar.Request.Namespace ar.Request.Name = .ok pod ∧
      isVirtLauncher pod = true ∧
      pod.Annotations.lookup DomainAnnotation = some vmiName ∧
      admitter.virtClient.Get s ar.Request.Namespace vmiName = .error e ∧
      (Admit admitter s ar).value = denied ("kubevirt failed getting the vmi: " ++ e.text) ∧
      (Admit admitter s ar).store = s ∧ (Admit admitter s ar).patches = []) ∨
    (∃ pod vmi, Linked admitter s ar pod vmi ∧
      VMIEvictionStrategy admitter.clusterConfig vmi = some EvictionStrategyLiveMigrate ∧
      IsMigratable vmi = false ∧
      (Admit admitter s ar).value = denied ("VMI " ++ vmi.Name ++
        " is configured with an eviction strategy but is not live-migratable") ∧
      (Admit admitter s ar).store = s ∧ (Admit admitter s ar).patches = []) ∨
    (∃ pod vmi evictionStrategy, Linked admitter s ar pod vmi ∧
      VMIEvictionStrategy admitter.clusterConfig vmi = some evictionStrategy ∧
      MarkingCandidate evictionStrategy vmi ∧
      IsMarkedForEviction vmi = false ∧
      vmi.NodeName = pod.NodeName) := by
  cases hpod : admitter.kubeClient.Get s ar.Request.Namespace ar.Request.Name with
  | error e =>
    left
    simp [Admit, hpod, DeniesSpec]
  | ok pod =>
    by_cases hlauncher : isVirtLauncher pod = true
    swap
    · left
      simp only [Bool.not_eq_true] at hlauncher
      simp [Admit, hpod, hlauncher, DeniesSpec]
    cases hann : pod.Annotations.lookup DomainAnnotation with
    | none =>
      left
      simp [Admit, hpod, hlauncher, hann, DeniesSpec]
    | some vmiName =>
      cases hvmi : admitter.virtClient.Get s ar.Request.Namespace vmiName with
      | error e =>
        right; left
        exact ⟨pod, vmiName, e, rfl, hlauncher, hann, hvmi,
          by simp [Admit, hpod, hlauncher, hann, hvmi]⟩
      | ok vmi =>
        have hlinked : Linked admitter s ar pod vmi := ⟨hpod, hlauncher, vmiName, hann, hvmi⟩
        cases hstrategy : VMIEvictionStrategy admitter.clusterConfig vmi with
        | none =>
          left
          simp [Admit, hpod, hlauncher, hann, hvmi, hstrategy, DeniesSpec]
        | some evictionStrategy =>
          by_cases hcandidate : MarkingCandidate evictionStrategy vmi
          · by_cases hguard : IsMarkedForEviction vmi = false ∧ vmi.NodeName = pod.NodeName
            · right; right; right
              exact ⟨pod, vmi, evictionStrategy, hlinked,
                hstrategy, hcandidate, hguard.1, hguard.2⟩
            · left
              have hfails : IsMarkedForEviction vmi = true ∨ vmi.NodeName ≠ pod.NodeName := by
                by_cases hm : IsMarkedForEviction vmi = true
                · exact Or.inl hm
                · simp only [Bool.not_eq_true] at hm
                  exact Or.inr (fun hn => hguard ⟨hm, hn⟩)
              have hpass := Admit_guard_fails admitter s ar pod vmi evictionStrategy
                hlinked hstrategy hcandidate hfails
              refine ⟨hpass.1, hpass.2.1, hpass.2.2, ?_⟩
              rintro ⟨pod', hpod', _, vmiName', hann', hrest⟩
              rw [hpod] at hpod'
              cases hpod'
              rw [hann] at hann'
              cases hann'
              rcases hrest with ⟨e, he⟩ | ⟨vmi', hvmi', hrest⟩
              · rw [hvmi] at he; cases he
              · rw [hvmi] at hvmi'
                cases hvmi'
                rcases hrest with ⟨hs, hm⟩ | ⟨es, hs, _, hum, hn⟩
                · rw [hstrategy] at hs
                  cases hs
                  rcases hcandidate with ⟨_, hm'⟩ | ⟨h, _⟩ | h
                  · rw [hm] at hm'; cases hm'
                  · exact absurd h (by decide)
                  · exact absurd h (by decide)
                · exact hguard ⟨hum, hn⟩
          · by_cases hpolicy : evictionStrategy = EvictionStrategyLiveMigrate ∧
                IsMigratable vmi = false
            · right; right; left
              refine ⟨pod, vmi, hlinked,
                by rw [hstrategy, hpolicy.1], hpolicy.2, ?_⟩
              simp [Admit, hpod, hlauncher, hann, hvmi, hstrategy, evictionSwitch,
                hpolicy.1, hpolicy.2]
            · left
              have hswitch := evictionSwitch_other evictionStrategy vmi hcandidate hpolicy
              refine ⟨?_, ?_, ?_, ?_⟩
              · simp [Admit, hpod, hlauncher, hann, hvmi, hstrategy, hswitch]
              · simp [Admit, hpod, hlauncher, hann, hvmi, hstrategy, hswitch]
              · simp [Admit, hpod, hlauncher, hann, hvmi, hstrategy, hswitch]
              · rintro ⟨pod', hpod', _, vmiName', hann', hrest⟩
                rw [hpod] at hpod'
                cases hpod'
                rw [hann] at hann'
                cases hann'
                rcases hrest with ⟨e, he⟩ | ⟨vmi', hvmi', hrest⟩
                · rw [hvmi] at he; cases he
                · rw [hvmi] at hvmi'
                  cases hvmi'
                  rcases hrest with ⟨hs, hm⟩ | ⟨es, hs, hc, _, _⟩
                  · rw [hstrategy] at hs
                    cases hs
                    exact hpolicy ⟨rfl, hm⟩
                  · rw [hstrategy] at hs
                    cases hs
                    exact hcandidate hc

theorem find_after_mark_other (vmis : List VirtualMachineInstance)
    (ns name target targetName node : String) (hne : ¬ (target = ns ∧ targetName = name)) :
    (vmis.map (fun v =>
        if v.Namespace == target && v.Name == targetName then
          { v with EvacuationNodeName := node }
        else v)).find? (fun v => v.Namespace == ns && v.Name == name) =
      vmis.find? (fun v => v.Namespace == ns && v.Name == name) := by
  have hcomp : ((fun v : VirtualMachineInstance => v.Namespace == ns && v.Name == name) ∘
      fun v => if v.Namespace == target && v.Name == targetName then
          { v with EvacuationNodeName := node }
        else v) = fun v => v.Namespace == ns && v.Name == name := by
    funext v
    by_cases hv : (v.Namespace == target && v.Name == targetName) = true
    · simp only [Function.comp, hv, if_true]
    · simp only [Bool.not_eq_true] at hv
      simp [Function.comp, hv]
  rw [List.find?_map, hcomp]
  cases hfind : vmis.find? (fun v => v.Namespace == ns && v.Name == name) with
  | none => rfl
  | some w =>
    have hkey := List.find?_some hfind
    simp only [Bool.and_eq_true, beq_iff_eq] at hkey
    have hother : (w.Namespace == target && w.Name == targetName) = false := by
      simp only [Bool.and_eq_false_iff, beq_eq_false_iff_ne]
      by_cases h1 : w.Namespace = target
      · right
        intro h2
        exact hne ⟨h1 ▸ hkey.1, h2 ▸ hkey.2⟩
      · exact Or.inl h1
    simp [Option.map, hother]

theorem patchVMI_other (s : MemStore) (target targetName pt data : String)
    (options : PatchOptions) (ns name : String) (hne : ¬ (target = ns ∧ targetName = name)) :
    (s.patchVMI target targetName pt data options).2.getVMI ns name = s.getVMI ns name := by
  unfold MemStore.patchVMI
  split
  · rfl
  · split
    · rfl
    · split
      · rfl
      · split
        · rfl
        · unfold MemStore.getVMI
          simp only []
          rw [find_after_mark_other s.vmis ns name target targetName _ hne]

theorem patchVMI_ok_iff (s : MemStore) (ns name node : String) (options : PatchOptions)
    (vmi : VirtualMachineInstance) (hget : s.getVMI ns name = .ok vmi) :
    errOf (s.patchVMI ns name JSONPatchType (patchData node) options).1 = none ↔
      node.data.all jsonPlain = true := by
  have hfind := getVMI_find s ns name vmi hget
  by_cases hplain : node.data.all jsonPlain = true
  · simp only [MemStore.patchVMI, hfind, decodeEvacuationPatch_patchData, hplain, ne_eq,
      not_true_eq_false, if_false, if_true, iff_true]
    split <;> rfl
  · simp [MemStore.patchVMI, hfind, decodeEvacuationPatch_patchData, hplain, errOf]

theorem Admit_mark_store (clusterConfig : ClusterConfig) (s : MemStore)
    (ar : AdmissionReview) (pod : Pod) (vmi : VirtualMachineInstance)
    (evictionStrategy : EvictionStrategy)
    (hlinked : Linked (memAdmitter clusterConfig) s ar pod vmi)
    (hstrategy : VMIEvictionStrategy clusterConfig vmi = some evictionStrategy)
    (hcandidate : MarkingCandidate evictionStrategy vmi)
    (hunmarked : IsMarkedForEviction vmi = false)
    (hnode : vmi.NodeName = pod.NodeName)
    (hpersist : ar.Request.DryRun ≠ some true)
    (hpatch : errOf (s.patchVMI vmi.Namespace vmi.Name JSONPatchType
      (patchData vmi.NodeName) ⟨[]⟩).1 = none) :
    (Admit (memAdmitter clusterConfig) s ar).value =
      denied ("Eviction triggered evacuation of VMI \"" ++
        vmi.Namespace ++ "/" ++ vmi.Name ++ "\"") ∧
    (Admit (memAdmitter clusterConfig) s ar).patches =
      [⟨vmi.Namespace, vmi.Name, JSONPatchType, patchData vmi.NodeName, ⟨[]⟩⟩] ∧
    (Admit (memAdmitter clusterConfig) s ar).store.getVMI vmi.Namespace vmi.Name =
      .ok { vmi with EvacuationNodeName := vmi.NodeName } ∧
    (Admit (memAdmitter clusterConfig) s ar).store.pods = s.pods := by
  have hmark := Admit_marking (memAdmitter clusterConfig) s ar pod vmi evictionStrategy
    hlinked hstrategy hcandidate hunmarked hnode
  obtain ⟨_, _, vmiName, _, hvmi⟩ := hlinked
  have hkey := getVMI_key s ar.Request.Namespace vmiName vmi hvmi
  have hget : s.getVMI vmi.Namespace vmi.Name = .ok vmi := by
    rw [hkey.1, hkey.2]; exact hvmi
  have hstored := patchVMI_persists s vmi.Namespace vmi.Name vmi.NodeName vmi hget hpatch
  simp only [hpersist, if_false] at hmark
  have hpatch2 : errOf ((memAdmitter clusterConfig).virtClient.Patch s vmi.Namespace vmi.Name
      JSONPatchType (patchData vmi.NodeName) ⟨[]⟩).1 = none := hpatch
  rw [hpatch2] at hmark
  refine ⟨hmark.1, hmark.2.2, ?_, ?_⟩
  · rw [hmark.2.1]; exact hstored.1
  · rw [hmark.2.1]; exact hstored.2

/-! ## The decision -/

/-- Claim C1. When the evicted pod is a virt-launcher pod linked to a fetchable VMI whose
effective strategy is LiveMigrate and which is not migratable, `Admit` denies with code 429
and the not-live-migratable message naming the VMI, issues no Patch and leaves the store as
it was, whatever the VMI's evacuation mark and whatever the two node names. -/
theorem admit_liveMigrate_not_migratable {σ : Type} (admitter : PodEvictionAdmitter σ) (s : σ)
    (ar : AdmissionReview) (pod : Pod) (vmi : VirtualMachineInstance)
    (hlinked : Linked admitter s ar pod vmi)
    (hstrategy : VMIEvictionStrategy admitter.clusterConfig vmi =
      some EvictionStrategyLiveMigrate)
    (hmigratable : IsMigratable vmi = false) :
    (Admit admitter s ar).value =
      ⟨false, some ⟨"VMI " ++ vmi.Name ++
        " is configured with an eviction strategy but is not live-migratable", 429⟩⟩ ∧
    (Admit admitter s ar).patches = [] ∧
    (Admit admitter s ar).store = s := by
  obtain ⟨hpod, hlauncher, vmiName, hann, hvmi⟩ := hlinked
  simp [Admit, hpod, hlauncher, hann, hvmi, hstrategy, evictionSwitch, hmigratable, denied,
    StatusTooManyRequests]

theorem admit_liveMigrate_not_migratable_witness :
    Linked (memAdmitter noDefault)
      (cluster (launcherPod "node-a") (vm1 "LiveMigrate" false "node-b" "node-b"))
      (evictVm1 none) (launcherPod "node-a") (vm1 "LiveMigrate" false "node-b" "node-b") ∧
    (Admit (memAdmitter noDefault)
      (cluster (launcherPod "node-a") (vm1 "LiveMigrate" false "node-b" "node-b"))
      (evictVm1 none)).value =
      ⟨false, some
        ⟨"VMI vm1 is configured with an eviction strategy but is not live-migratable", 429⟩⟩ ∧
    (Admit (memAdmitter noDefault)
      (cluster (launcherPod "node-a") (vm1 "LiveMigrate" false "node-b" "node-b"))
      (evictVm1 none)).patches = [] :=
  have hlinked : Linked (memAdmitter noDefault)
      (cluster (launcherPod "node-a") (vm1 "LiveMigrate" false "node-b" "node-b"))
      (evictVm1 none) (launcherPod "node-a") (vm1 "LiveMigrate" false "node-b" "node-b") :=
    ⟨rfl, rfl, "vm1", rfl, rfl⟩
  have h := admit_liveMigrate_not_migratable (memAdmitter noDefault)
    (cluster (launcherPod "node-a") (vm1 "LiveMigrate" false "node-b" "node-b"))
    (evictVm1 none) (launcherPod "node-a") (vm1 "LiveMigrate" false "node-b" "node-b")
    hlinked rfl rfl
  ⟨hlinked, h.1, h.2.1⟩

/-- Claim C3. When the evicted pod is a virt-launcher pod linked to a fetchable VMI whose
effective strategy is unset (nil) or None, `Admit` returns the passing response, for every
migratability, evacuation mark, VMI node and pod node; it issues no Patch. -/
theorem admit_unset_or_none_passes {σ : Type} (admitter : PodEvictionAdmitter σ) (s : σ)
    (ar : AdmissionReview) (pod : Pod) (vmi : VirtualMachineInstance)
    (hlinked : Linked admitter s ar pod vmi)
    (hstrategy : VMIEvictionStrategy admitter.clusterConfig vmi = none ∨
      VMIEvictionStrategy admitter.clusterConfig vmi = some EvictionStrategyNone) :
    (Admit admitter s ar).value = NewPassingAdmissionResponse ∧
    (Admit admitter s ar).value.Allowed = true ∧
    (Admit admitter s ar).patches = [] := by
  obtain ⟨hpod, hlauncher, vmiName, hann, hvmi⟩ := hlinked
  rcases hstrategy with h | h <;>
    simp [Admit, hpod, hlauncher, hann, hvmi, h, evictionSwitch, EvictionStrategyNone,
      EvictionStrategyLiveMigrate, EvictionStrategyLiveMigrateIfPossible,
      EvictionStrategyExternal, NewPassingAdmissionResponse]

theorem admit_unset_or_none_passes_witness :
    Linked (memAdmitter noDefault)
      (cluster (launcherPod "node-a") (vm1 "None" true "node-a" ""))
      (evictVm1 none) (launcherPod "node-a") (vm1 "None" true "node-a" "") ∧
    (Admit (memAdmitter noDefault)
      (cluster (launcherPod "node-a") (vm1 "None" true "node-a" ""))
      (evictVm1 none)).value = ⟨true, none⟩ :=
  have hlinked : Linked (memAdmitter noDefault)
      (cluster (launcherPod "node-a") (vm1 "None" true "node-a" ""))
      (evictVm1 none) (launcherPod "node-a") (vm1 "None" true "node-a" "") :=
    ⟨rfl, rfl, "vm1", rfl, rfl⟩
  ⟨hlinked, (admit_unset_or_none_passes (memAdmitter noDefault)
    (cluster (launcherPod "node-a") (vm1 "None" true "node-a" ""))
    (evictVm1 none) (launcherPod "node-a") (vm1 "None" true "node-a" "")
    hlinked (Or.inr rfl)).1⟩

/-- Claim C4. For a marking candidate whose marking guard fails, because the VMI is already
marked for eviction or because its node differs from the evicted pod's node, `Admit`
returns the passing response and issues no Patch. -/
theorem admit_guard_fails_passes {σ : Type} (admitter : PodEvictionAdmitter σ) (s : σ)
    (ar : AdmissionReview) (pod : Pod) (vmi : VirtualMachineInstance)
    (evictionStrategy : EvictionStrategy)
    (hlinked : Linked admitter s ar pod vmi)
    (hstrategy : VMIEvictionStrategy admitter.clusterConfig vmi = some evictionStrategy)
    (hcandidate : MarkingCandidate evictionStrategy vmi)
    (hguard : IsMarkedForEviction vmi = true ∨ vmi.NodeName ≠ pod.NodeName) :
    (Admit admitter s ar).value = NewPassingAdmissionResponse ∧
    (Admit admitter s ar).value.Allowed = true ∧
    (Admit admitter s ar).patches = [] := by
  obtain ⟨hpod, hlauncher, vmiName, hann, hvmi⟩ := hlinked
  have hswitch := evictionSwitch_candidate evictionStrategy vmi hcandidate
  rcases hguard with h | h <;>
    simp [Admit, hpod, hlauncher, hann, hvmi, hstrategy, hswitch, h,
      NewPassingAdmissionResponse]

theorem admit_guard_fails_passes_witness :
    Linked (memAdmitter noDefault)
      (cluster (launcherPod "node-a") (vm1 "LiveMigrate" true "node-b" ""))
      (evictVm1 none) (launcherPod "node-a") (vm1 "LiveMigrate" true "node-b" "") ∧
    MarkingCandidate "LiveMigrate" (vm1 "LiveMigrate" true "node-b" "") ∧
    (vm1 "LiveMigrate" true "node-b" "").NodeName ≠ (launcherPod "node-a").NodeName ∧
    (Admit (memAdmitter noDefault)
      (cluster (launcherPod "node-a") (vm1 "LiveMigrate" true "node-b" ""))
      (evictVm1 none)).value = ⟨true, none⟩ ∧
    (Admit (memAdmitter noDefault)
      (cluster (launcherPod "node-a") (vm1 "LiveMigrate" true "node-b" ""))
      (evictVm1 none)).patches = [] :=
  have hlinked : Linked (memAdmitter noDefault)
      (cluster (launcherPod "node-a") (vm1 "LiveMigrate" true "node-b" ""))
      (evictVm1 none) (launcherPod "node-a") (vm1 "LiveMigrate" true "node-b" "") :=
    ⟨rfl, rfl, "vm1", rfl, rfl⟩
  have hcandidate : MarkingCandidate "LiveMigrate" (vm1 "LiveMigrate" true "node-b" "") :=
    Or.inl ⟨rfl, rfl⟩
  have hnode : (vm1 "LiveMigrate" true "node-b" "").NodeName ≠
      (launcherPod "node-a").NodeName := by decide
  have h := admit_guard_fails_passes (memAdmitter noDefault)
    (cluster (launcherPod "node-a") (vm1 "LiveMigrate" true "node-b" ""))
    (evictVm1 none) (launcherPod "node-a") (vm1 "LiveMigrate" true "node-b" "")
    "LiveMigrate" hlinked rfl hcandidate (Or.inr hnode)
  ⟨hlinked, hcandidate, hnode, h.1, h.2.2⟩

/-- Claim C6. When `Admit` takes the marking path (a marking candidate that is not marked
for eviction and whose node is the evicted pod's node) and the Patch it issues returns the
error `e`, `Admit` denies with code 429 and the message
"kubevirt failed marking the vmi for eviction: " followed by the text of `e`; the response
is not the passing one. -/
theorem admit_patch_error_denied {σ : Type} (admitter : PodEvictionAdmitter σ) (s : σ)
    (ar : AdmissionReview) (pod : Pod) (vmi : VirtualMachineInstance)
    (evictionStrategy : EvictionStrategy) (e : Error)
    (hlinked : Linked admitter s ar pod vmi)
    (hstrategy : VMIEvictionStrategy admitter.clusterConfig vmi = some evictionStrategy)
    (hcandidate : MarkingCandidate evictionStrategy vmi)
    (hunmarked : IsMarkedForEviction vmi = false)
    (hnode : vmi.NodeName = pod.NodeName)
    (hpatch : errOf (admitter.virtClient.Patch s vmi.Namespace vmi.Name JSONPatchType
      (patchData vmi.NodeName)
      ⟨if ar.Request.DryRun = some true then [DryRunAll] else []⟩).1 = some e) :
    (Admit admitter s ar).value =
      ⟨false, some ⟨"kubevirt failed marking the vmi for eviction: " ++ e.text, 429⟩⟩ ∧
    (Admit admitter s ar).value ≠ NewPassingAdmissionResponse := by
  obtain ⟨hpod, hlauncher, vmiName, hann, hvmi⟩ := hlinked
  have hswitch := evictionSwitch_candidate evictionStrategy vmi hcandidate
  obtain ⟨⟨ns, name, dryRun⟩⟩ := ar
  rcases dryRun with _ | _ | _ <;>
    simp_all [Admit, markVMI, denied, StatusTooManyRequests, NewPassingAdmissionResponse]

theorem admit_patch_error_denied_witness :
    Linked (patchFails ⟨"Timeout", "request timed out"⟩ noDefault)
      (cluster (launcherPod "node-a") (vm1 "External" false "node-a" ""))
      (evictVm1 none) (launcherPod "node-a") (vm1 "External" false "node-a" "") ∧
    MarkingCandidate "External" (vm1 "External" false "node-a" "") ∧
    (Admit (patchFails ⟨"Timeout", "request timed out"⟩ noDefault)
      (cluster (launcherPod "node-a") (vm1 "External" false "node-a" ""))
      (evictVm1 none)).value =
      ⟨false, some
        ⟨"kubevirt failed marking the vmi for eviction: request timed out", 429⟩⟩ :=
  have hlinked : Linked (patchFails ⟨"Timeout", "request timed out"⟩ noDefault)
      (cluster (launcherPod "node-a") (vm1 "External" false "node-a" ""))
      (evictVm1 none) (launcherPod "node-a") (vm1 "External" false "node-a" "") :=
    ⟨rfl, rfl, "vm1", rfl, rfl⟩
  have hcandidate : MarkingCandidate "External" (vm1 "External" false "node-a" "") :=
    Or.inr (Or.inr rfl)
  ⟨hlinked, hcandidate, (admit_patch_error_denied
    (patchFails ⟨"Timeout", "request timed out"⟩ noDefault)
    (cluster (launcherPod "node-a") (vm1 "External" false "node-a" ""))
    (evictVm1 none) (launcherPod "node-a") (vm1 "External" false "node-a" "")
    "External" ⟨"Timeout", "request timed out"⟩ hlinked rfl hcandidate rfl rfl rfl).1⟩

/-- Claim C10. When the evicted pod is a virt-launcher pod linked to a fetchable VMI whose
strategy is LiveMigrateIfPossible and which is not migratable, `Admit` returns the passing
response and issues no Patch, for every evacuation mark and every pair of node names. -/
theorem admit_ifPossible_not_migratable_passes {σ : Type} (admitter : PodEvictionAdmitter σ)
    (s : σ) (ar : AdmissionReview) (pod : Pod) (vmi : VirtualMachineInstance)
    (hlinked : Linked admitter s ar pod vmi)
    (hstrategy : VMIEvictionStrategy admitter.clusterConfig vmi =
      some EvictionStrategyLiveMigrateIfPossible)
    (hmigratable : IsMigratable vmi = false) :
    (Admit admitter s ar).value = NewPassingAdmissionResponse ∧
    (Admit admitter s ar).value.Allowed = true ∧
    (Admit admitter s ar).patches = [] := by
  obtain ⟨hpod, hlauncher, vmiName, hann, hvmi⟩ := hlinked
  simp [Admit, hpod, hlauncher, hann, hvmi, hstrategy, evictionSwitch, hmigratable,
    EvictionStrategyLiveMigrate, EvictionStrategyLiveMigrateIfPossible,
    NewPassingAdmissionResponse]

theorem admit_ifPossible_not_migratable_passes_witness :
    Linked (memAdmitter noDefault)
      (cluster (launcherPod "node-a") (vm1 "LiveMigrateIfPossible" false "node-a" ""))
      (evictVm1 none) (launcherPod "node-a") (vm1 "LiveMigrateIfPossible" false "node-a" "") ∧
    (Admit (memAdmitter noDefault)
      (cluster (launcherPod "node-a") (vm1 "LiveMigrateIfPossible" false "node-a" ""))
      (evictVm1 none)).value = ⟨true, none⟩ ∧
    (Admit (memAdmitter noDefault)
      (cluster (launcherPod "node-a") (vm1 "LiveMigrateIfPossible" false "node-a" ""))
      (evictVm1 none)).patches = [] :=
  have hlinked : Linked (memAdmitter noDefault)
      (cluster (launcherPod "node-a") (vm1 "LiveMigrateIfPossible" false "node-a" ""))
      (evictVm1 none) (launcherPod "node-a")
      (vm1 "LiveMigrateIfPossible" false "node-a" "") :=
    ⟨rfl, rfl, "vm1", rfl, rfl⟩
  have h := admit_ifPossible_not_migratable_passes (memAdmitter noDefault)
    (cluster (launcherPod "node-a") (vm1 "LiveMigrateIfPossible" false "node-a" ""))
    (evictVm1 none) (launcherPod "node-a") (vm1 "LiveMigrateIfPossible" false "node-a" "")
    hlinked rfl rfl
  ⟨hlinked, h.1, h.2.2⟩

/-- Claim C2, amended. Over the in-memory store, for every eviction request that is not a
dry run, whose pod is a virt-launcher pod linked to a fetchable VMI that is not marked for
eviction, whose node is the pod's node and whose strategy is LiveMigrate with the VMI
migratable or External, and for which the Patch succeeds: `Admit` returns the 429 denial
"Eviction triggered evacuation of VMI" and afterwards the stored VMI is the fetched one with
`evacuationNodeName` equal to the pod's node name. -/
theorem admit_marks_vmi (clusterConfig : ClusterConfig) (s : MemStore) (ar : AdmissionReview)
    (pod : Pod) (vmi : VirtualMachineInstance) (evictionStrategy : EvictionStrategy)
    (hlinked : Linked (memAdmitter clusterConfig) s ar pod vmi)
    (hstrategy : VMIEvictionStrategy clusterConfig vmi = some evictionStrategy)
    (hcase : (evictionStrategy = EvictionStrategyLiveMigrate ∧ IsMigratable vmi = true) ∨
      evictionStrategy = EvictionStrategyExternal)
    (hunmarked : IsMarkedForEviction vmi = false)
    (hnode : vmi.NodeName = pod.NodeName)
    (hpersist : ar.Request.DryRun ≠ some true)
    (hpatch : errOf (s.patchVMI vmi.Namespace vmi.Name JSONPatchType
      (patchData vmi.NodeName) ⟨[]⟩).1 = none) :
    (Admit (memAdmitter clusterConfig) s ar).value =
      ⟨false, some ⟨"Eviction triggered evacuation of VMI \"" ++
        vmi.Namespace ++ "/" ++ vmi.Name ++ "\"", 429⟩⟩ ∧
    (Admit (memAdmitter clusterConfig) s ar).store.getVMI vmi.Namespace vmi.Name =
      .ok { vmi with EvacuationNodeName := pod.NodeName } := by
  have hcandidate : MarkingCandidate evictionStrategy vmi := by
    rcases hcase with h | h
    · exact Or.inl h
    · exact Or.inr (Or.inr h)
  have hmark := Admit_marking (memAdmitter clusterConfig) s ar pod vmi evictionStrategy
    hlinked hstrategy hcandidate hunmarked hnode
  obtain ⟨_, _, vmiName, _, hvmi⟩ := hlinked
  have hkey := getVMI_key s ar.Request.Namespace vmiName vmi hvmi
  have hget : s.getVMI vmi.Namespace vmi.Name = .ok vmi := by
    rw [hkey.1, hkey.2]; exact hvmi
  have hstored := patchVMI_persists s vmi.Namespace vmi.Name vmi.NodeName vmi hget hpatch
  simp only [hpersist, if_false] at hmark
  have hpatch2 : errOf ((memAdmitter clusterConfig).virtClient.Patch s vmi.Namespace vmi.Name
      JSONPatchType (patchData vmi.NodeName) ⟨[]⟩).1 = none := hpatch
  rw [hpatch2] at hmark
  refine ⟨?_, ?_⟩
  · rw [hmark.1]; rfl
  · rw [hmark.2.1, ← hnode]; exact hstored.1

theorem admit_marks_vmi_witness :
    Linked (memAdmitter noDefault)
      (cluster (launcherPod "node-a") (vm1 "External" false "node-a" ""))
      (evictVm1 none) (launcherPod "node-a") (vm1 "External" false "node-a" "") ∧
    (Admit (memAdmitter noDefault)
      (cluster (launcherPod "node-a") (vm1 "External" false "node-a" ""))
      (evictVm1 none)).value =
      ⟨false, some ⟨"Eviction triggered evacuation of VMI \"ns/vm1\"", 429⟩⟩ ∧
    (Admit (memAdmitter noDefault)
      (cluster (launcherPod "node-a") (vm1 "External" false "node-a" ""))
      (evictVm1 none)).store.getVMI "ns" "vm1" =
      .ok (vm1 "External" false "node-a" "node-a") :=
  have hlinked : Linked (memAdmitter noDefault)
      (cluster (launcherPod "node-a") (vm1 "External" false "node-a" ""))
      (evictVm1 none) (launcherPod "node-a") (vm1 "External" false "node-a" "") :=
    ⟨rfl, rfl, "vm1", rfl, rfl⟩
  have h := admit_marks_vmi noDefault
    (cluster (launcherPod "node-a") (vm1 "External" false "node-a" ""))
    (evictVm1 none) (launcherPod "node-a") (vm1 "External" false "node-a" "") "External"
    hlinked rfl (Or.inr rfl) rfl rfl (by decide) rfl
  ⟨hlinked, h.1, h.2⟩

/-- Claim C2 fails for a dry-run request: the pod of `ns/vm1` (LiveMigrate, migratable, not
marked, on `node-a` like its pod) is evicted with `DryRun = true`; the Patch succeeds and
`Admit` answers with the evacuation denial, yet the stored VMI still has an empty
`evacuationNodeName`, which is not the pod's node name. -/
theorem admit_marks_vmi_dry_run_counterexample :
    Linked (memAdmitter noDefault)
      (cluster (launcherPod "node-a") (vm1 "LiveMigrate" true "node-a" ""))
      (evictVm1 (some true)) (launcherPod "node-a") (vm1 "LiveMigrate" true "node-a" "") ∧
    errOf ((cluster (launcherPod "node-a") (vm1 "LiveMigrate" true "node-a" "")).patchVMI
      "ns" "vm1" JSONPatchType (patchData "node-a") ⟨[DryRunAll]⟩).1 = none ∧
    (Admit (memAdmitter noDefault)
      (cluster (launcherPod "node-a") (vm1 "LiveMigrate" true "node-a" ""))
      (evictVm1 (some true))).value =
      ⟨false, some ⟨"Eviction triggered evacuation of VMI \"ns/vm1\"", 429⟩⟩ ∧
    (Admit (memAdmitter noDefault)
      (cluster (launcherPod "node-a") (vm1 "LiveMigrate" true "node-a" ""))
      (evictVm1 (some true))).patches =
      [⟨"ns", "vm1", JSONPatchType, patchData "node-a", ⟨[DryRunAll]⟩⟩] ∧
    (Admit (memAdmitter noDefault)
      (cluster (launcherPod "node-a") (vm1 "LiveMigrate" true "node-a" ""))
      (evictVm1 (some true))).store.getVMI "ns" "vm1" =
      .ok (vm1 "LiveMigrate" true "node-a" "") ∧
    (vm1 "LiveMigrate" true "node-a" "").EvacuationNodeName ≠
      (launcherPod "node-a").NodeName :=
  ⟨⟨rfl, rfl, "vm1", rfl, rfl⟩, rfl, rfl, rfl, rfl, by decide⟩

/-- Claim C5, amended. Over the in-memory store, where a successful Patch that is not a dry
run sets the VMI's `evacuationNodeName` to the patched value and a VMI is marked for
eviction when that field is non-empty: for every store state and every eviction request
that is not a dry run, if the first `Admit` takes the marking path with a successful Patch
and the node name written is not empty, then the first call returns the evacuation denial
and a second `Admit` of the same request on the resulting store returns the passing
response and issues no Patch. -/
theorem admit_twice_passes (clusterConfig : ClusterConfig) (s : MemStore)
    (ar : AdmissionReview) (pod : Pod) (vmi : VirtualMachineInstance)
    (evictionStrategy : EvictionStrategy)
    (hlinked : Linked (memAdmitter clusterConfig) s ar pod vmi)
    (hstrategy : VMIEvictionStrategy clusterConfig vmi = some evictionStrategy)
    (hcandidate : MarkingCandidate evictionStrategy vmi)
    (hunmarked : IsMarkedForEviction vmi = false)
    (hnode : vmi.NodeName = pod.NodeName)
    (hpersist : ar.Request.DryRun ≠ some true)
    (hpatch : errOf (s.patchVMI vmi.Namespace vmi.Name JSONPatchType
      (patchData vmi.NodeName) ⟨[]⟩).1 = none)
    (hnonempty : pod.NodeName ≠ "") :
    (Admit (memAdmitter clusterConfig) s ar).value =
      ⟨false, some ⟨"Eviction triggered evacuation of VMI \"" ++
        vmi.Namespace ++ "/" ++ vmi.Name ++ "\"", 429⟩⟩ ∧
    (Admit (memAdmitter clusterConfig) (Admit (memAdmitter clusterConfig) s ar).store ar).value =
      NewPassingAdmissionResponse ∧
    (Admit (memAdmitter clusterConfig)
      (Admit (memAdmitter clusterConfig) s ar).store ar).patches = [] := by
  have hmark := Admit_marking (memAdmitter clusterConfig) s ar pod vmi evictionStrategy
    hlinked hstrategy hcandidate hunmarked hnode
  obtain ⟨hpod, hlauncher, vmiName, hann, hvmi⟩ := hlinked
  have hkey := getVMI_key s ar.Request.Namespace vmiName vmi hvmi
  have hget : s.getVMI vmi.Namespace vmi.Name = .ok vmi := by
    rw [hkey.1, hkey.2]; exact hvmi
  have hstored := patchVMI_persists s vmi.Namespace vmi.Name vmi.NodeName vmi hget hpatch
  simp only [hpersist, if_false] at hmark
  have hpatch2 : errOf ((memAdmitter clusterConfig).virtClient.Patch s vmi.Namespace vmi.Name
      JSONPatchType (patchData vmi.NodeName) ⟨[]⟩).1 = none := hpatch
  rw [hpatch2] at hmark
  have hstore : (Admit (memAdmitter clusterConfig) s ar).store =
      (s.patchVMI vmi.Namespace vmi.Name JSONPatchType (patchData vmi.NodeName) ⟨[]⟩).2 :=
    hmark.2.1
  have hlinked2 : Linked (memAdmitter clusterConfig)
      (Admit (memAdmitter clusterConfig) s ar).store ar pod
      { vmi with EvacuationNodeName := vmi.NodeName } := by
    refine ⟨?_, hlauncher, vmiName, hann, ?_⟩
    · rw [hstore]
      exact (getPod_congr s _ _ _ hstored.2).trans hpod
    · rw [hstore, ← hkey.1, ← hkey.2]
      exact hstored.1
  have hcandidate2 : MarkingCandidate evictionStrategy
      { vmi with EvacuationNodeName := vmi.NodeName } := hcandidate
  have hmarked : IsMarkedForEviction { vmi with EvacuationNodeName := vmi.NodeName } = true := by
    simp [IsMarkedForEviction, hnode, hnonempty]
  have hsecond := Admit_guard_fails (memAdmitter clusterConfig)
    (Admit (memAdmitter clusterConfig) s ar).store ar pod
    { vmi with EvacuationNodeName := vmi.NodeName } evictionStrategy hlinked2 hstrategy
    hcandidate2 (Or.inl hmarked)
  refine ⟨?_, hsecond.1, hsecond.2.2⟩
  rw [hmark.1]; rfl

theorem admit_twice_passes_witness :
    Linked (memAdmitter noDefault)
      (cluster (launcherPod "node-a") (vm1 "LiveMigrateIfPossible" true "node-a" ""))
      (evictVm1 none) (launcherPod "node-a") (vm1 "LiveMigrateIfPossible" true "node-a" "") ∧
    MarkingCandidate "LiveMigrateIfPossible" (vm1 "LiveMigrateIfPossible" true "node-a" "") ∧
    (Admit (memAdmitter noDefault)
      (cluster (launcherPod "node-a") (vm1 "LiveMigrateIfPossible" true "node-a" ""))
      (evictVm1 none)).value =
      ⟨false, some ⟨"Eviction triggered evacuation of VMI \"ns/vm1\"", 429⟩⟩ ∧
    (Admit (memAdmitter noDefault)
      (Admit (memAdmitter noDefault)
        (cluster (launcherPod "node-a") (vm1 "LiveMigrateIfPossible" true "node-a" ""))
        (evictVm1 none)).store (evictVm1 none)).value = ⟨true, none⟩ ∧
    (Admit (memAdmitter noDefault)
      (Admit (memAdmitter noDefault)
        (cluster (launcherPod "node-a") (vm1 "LiveMigrateIfPossible" true "node-a" ""))
        (evictVm1 none)).store (evictVm1 none)).patches = [] :=
  have hlinked : Linked (memAdmitter noDefault)
      (cluster (launcherPod "node-a") (vm1 "LiveMigrateIfPossible" true "node-a" ""))
      (evictVm1 none) (launcherPod "node-a")
      (vm1 "LiveMigrateIfPossible" true "node-a" "") :=
    ⟨rfl, rfl, "vm1", rfl, rfl⟩
  have hcandidate : MarkingCandidate "LiveMigrateIfPossible"
      (vm1 "LiveMigrateIfPossible" true "node-a" "") :=
    Or.inr (Or.inl ⟨rfl, rfl⟩)
  have h := admit_twice_passes noDefault
    (cluster (launcherPod "node-a") (vm1 "LiveMigrateIfPossible" true "node-a" ""))
    (evictVm1 none) (launcherPod "node-a") (vm1 "LiveMigrateIfPossible" true "node-a" "")
    "LiveMigrateIfPossible" hlinked rfl hcandidate rfl rfl (by decide) rfl (by decide)
  ⟨hlinked, hcandidate, h.1, h.2.1, h.2.2⟩

/-- Claim C5 fails when the node name is empty: the pod of `ns/vm1` (External, not marked)
has no node and neither has the VMI. The first `Admit` takes the marking path, its Patch
succeeds and writes the empty name, so the VMI is still unmarked; the second `Admit` of the
same request denies again and issues another Patch. -/
theorem admit_twice_empty_node_counterexample :
    Linked (memAdmitter noDefault)
      (cluster (launcherPod "") (vm1 "External" true "" ""))
      (evictVm1 none) (launcherPod "") (vm1 "External" true "" "") ∧
    MarkingCandidate "External" (vm1 "External" true "" "") ∧
    errOf ((cluster (launcherPod "") (vm1 "External" true "" "")).patchVMI
      "ns" "vm1" JSONPatchType (patchData "") ⟨[]⟩).1 = none ∧
    (Admit (memAdmitter noDefault) (cluster (launcherPod "") (vm1 "External" true "" ""))
      (evictVm1 none)).value =
      ⟨false, some ⟨"Eviction triggered evacuation of VMI \"ns/vm1\"", 429⟩⟩ ∧
    (Admit (memAdmitter noDefault) (cluster (launcherPod "") (vm1 "External" true "" ""))
      (evictVm1 none)).patches = [⟨"ns", "vm1", JSONPatchType, patchData "", ⟨[]⟩⟩] ∧
    (Admit (memAdmitter noDefault)
      (Admit (memAdmitter noDefault) (cluster (launcherPod "") (vm1 "External" true "" ""))
        (evictVm1 none)).store (evictVm1 none)).value.Allowed = false ∧
    (Admit (memAdmitter noDefault)
      (Admit (memAdmitter noDefault) (cluster (launcherPod "") (vm1 "External" true "" ""))
        (evictVm1 none)).store (evictVm1 none)).patches =
      [⟨"ns", "vm1", JSONPatchType, patchData "", ⟨[]⟩⟩] :=
  ⟨⟨rfl, rfl, "vm1", rfl, rfl⟩, Or.inr (Or.inr rfl), rfl, rfl, rfl, rfl, rfl⟩

/-- Claim C7. For every request that is eligible for the marking path, with `flag` the
request's DryRun field: the one Patch `Admit` issues carries `DryRun = [All]` exactly when
`flag` is non-nil and true and no dry-run option otherwise; whenever the Patch result is the
same as for the dry-run request, the response is the same as for the dry-run request (so
also for a nil or false flag); a dry-run request whose Patch succeeds still gets the
evacuation denial; and over a store in which a dry-run Patch persists nothing, the store
after the dry-run request is the store before it. -/
theorem admit_dry_run {σ : Type} (admitter : PodEvictionAdmitter σ) (s : σ)
    (ns name : String) (pod : Pod) (vmi : VirtualMachineInstance)
    (evictionStrategy : EvictionStrategy)
    (hlinked : Linked admitter s ⟨⟨ns, name, some true⟩⟩ pod vmi)
    (hstrategy : VMIEvictionStrategy admitter.clusterConfig vmi = some evictionStrategy)
    (hcandidate : MarkingCandidate evictionStrategy vmi)
    (hunmarked : IsMarkedForEviction vmi = false)
    (hnode : vmi.NodeName = pod.NodeName) :
    (∀ flag : Option Bool, (Admit admitter s ⟨⟨ns, name, flag⟩⟩).patches =
      [⟨vmi.Namespace, vmi.Name, JSONPatchType, patchData vmi.NodeName,
        ⟨if flag = some true then [DryRunAll] else []⟩⟩]) ∧
    (∀ flag : Option Bool,
      errOf (admitter.virtClient.Patch s vmi.Namespace vmi.Name JSONPatchType
          (patchData vmi.NodeName) ⟨if flag = some true then [DryRunAll] else []⟩).1 =
        errOf (admitter.virtClient.Patch s vmi.Namespace vmi.Name JSONPatchType
          (patchData vmi.NodeName) ⟨[DryRunAll]⟩).1 →
      (Admit admitter s ⟨⟨ns, name, flag⟩⟩).value =
        (Admit admitter s ⟨⟨ns, name, some true⟩⟩).value) ∧
    (errOf (admitter.virtClient.Patch s vmi.Namespace vmi.Name JSONPatchType
        (patchData vmi.NodeName) ⟨[DryRunAll]⟩).1 = none →
      (Admit admitter s ⟨⟨ns, name, some true⟩⟩).value =
        ⟨false, some ⟨"Eviction triggered evacuation of VMI \"" ++
          vmi.Namespace ++ "/" ++ vmi.Name ++ "\"", 429⟩⟩) ∧
    ((∀ (t : σ) (ns name pt data : String),
        (admitter.virtClient.Patch t ns name pt data ⟨[DryRunAll]⟩).2 = t) →
      (Admit admitter s ⟨⟨ns, name, some true⟩⟩).store = s) := by
  have hmark : ∀ flag : Option Bool, _ := fun flag =>
    Admit_marking admitter s ⟨⟨ns, name, flag⟩⟩ pod vmi evictionStrategy
      hlinked hstrategy hcandidate hunmarked hnode
  have hdry := hmark (some true)
  simp only [if_true] at hdry
  refine ⟨fun flag => (hmark flag).2.2, ?_, ?_, ?_⟩
  · intro flag hsame
    rw [(hmark flag).1, hdry.1]
    simp only [hsame]
  · intro hok
    rw [hdry.1, hok]
    rfl
  · intro hnothing
    rw [hdry.2.1]
    exact hnothing s _ _ _ _

theorem admit_dry_run_witness :
    Linked (memAdmitter noDefault)
      (cluster (launcherPod "node-a") (vm1 "External" false "node-a" ""))
      (evictVm1 (some true)) (launcherPod "node-a") (vm1 "External" false "node-a" "") ∧
    (Admit (memAdmitter noDefault)
      (cluster (launcherPod "node-a") (vm1 "External" false "node-a" ""))
      (evictVm1 (some true))).patches =
      [⟨"ns", "vm1", JSONPatchType, patchData "node-a", ⟨[DryRunAll]⟩⟩] ∧
    (Admit (memAdmitter noDefault)
      (cluster (launcherPod "node-a") (vm1 "External" false "node-a" ""))
      (evictVm1 none)).patches =
      [⟨"ns", "vm1", JSONPatchType, patchData "node-a", ⟨[]⟩⟩] ∧
    (Admit (memAdmitter noDefault)
      (cluster (launcherPod "node-a") (vm1 "External" false "node-a" ""))
      (evictVm1 none)).value =
    (Admit (memAdmitter noDefault)
      (cluster (launcherPod "node-a") (vm1 "External" false "node-a" ""))
      (evictVm1 (some true))).value ∧
    (Admit (memAdmitter noDefault)
      (cluster (launcherPod "node-a") (vm1 "External" false "node-a" ""))
      (evictVm1 (some true))).value =
      ⟨false, some ⟨"Eviction triggered evacuation of VMI \"ns/vm1\"", 429⟩⟩ ∧
    (Admit (memAdmitter noDefault)
      (cluster (launcherPod "node-a") (vm1 "External" false "node-a" ""))
      (evictVm1 (some true))).store =
      cluster (launcherPod "node-a") (vm1 "External" false "node-a" "") :=
  have hlinked : Linked (memAdmitter noDefault)
      (cluster (launcherPod "node-a") (vm1 "External" false "node-a" ""))
      (evictVm1 (some true)) (launcherPod "node-a") (vm1 "External" false "node-a" "") :=
    ⟨rfl, rfl, "vm1", rfl, rfl⟩
  have h := admit_dry_run (memAdmitter noDefault)
    (cluster (launcherPod "node-a") (vm1 "External" false "node-a" ""))
    "ns" "virt-launcher-vm1" (launcherPod "node-a") (vm1 "External" false "node-a" "")
    "External" hlinked rfl (Or.inr (Or.inr rfl)) rfl rfl
  ⟨hlinked, h.1 (some true), h.1 none, h.2.1 none rfl, h.2.2.1 rfl,
    h.2.2.2 (fun t ns name pt data => patchVMI_dryRun t ns name pt data)⟩

/-- Claim C8, amended. A failure of the VMI fetch (for a virt-launcher pod that carries the
domain annotation) and a failure of the Patch on the marking path each result in a denial
(Allowed=false), never in the passing response; a failure of the pod fetch, whatever its
reason, results in the passing response without a Patch. -/
theorem admit_collaborator_failures {σ : Type} (admitter : PodEvictionAdmitter σ) (s : σ)
    (ar : AdmissionReview) :
    (∀ e : Error,
      admitter.kubeClient.Get s ar.Request.Namespace ar.Request.Name = .error e →
      (Admit admitter s ar).value = NewPassingAdmissionResponse ∧
      (Admit admitter s ar).patches = []) ∧
    (∀ (pod : Pod) (vmiName : String) (e : Error),
      admitter.kubeClient.Get s ar.Request.Namespace ar.Request.Name = .ok pod →
      isVirtLauncher pod = true →
      pod.Annotations.lookup DomainAnnotation = some vmiName →
      admitter.virtClient.Get s ar.Request.Namespace vmiName = .error e →
      (Admit admitter s ar).value.Allowed = false ∧
      (Admit admitter s ar).value ≠ NewPassingAdmissionResponse) ∧
    (∀ (pod : Pod) (vmi : VirtualMachineInstance) (evictionStrategy : EvictionStrategy)
      (e : Error),
      Linked admitter s ar pod vmi →
      VMIEvictionStrategy admitter.clusterConfig vmi = some evictionStrategy →
      MarkingCandidate evictionStrategy vmi →
      IsMarkedForEviction vmi = false →
      vmi.NodeName = pod.NodeName →
      errOf (admitter.virtClient.Patch s vmi.Namespace vmi.Name JSONPatchType
        (patchData vmi.NodeName)
        ⟨if ar.Request.DryRun = some true then [DryRunAll] else []⟩).1 = some e →
      (Admit admitter s ar).value.Allowed = false ∧
      (Admit admitter s ar).value ≠ NewPassingAdmissionResponse) := by
  refine ⟨?_, ?_, ?_⟩
  · intro e hpod
    simp [Admit, hpod]
  · intro pod vmiName e hpod hlauncher hann hvmi
    simp [Admit, hpod, hlauncher, hann, hvmi, denied, NewPassingAdmissionResponse]
  · intro pod vmi evictionStrategy e hlinked hstrategy hcandidate hunmarked hnode hpatch
    have hmark := Admit_marking admitter s ar pod vmi evictionStrategy
      hlinked hstrategy hcandidate hunmarked hnode
    rw [hpatch] at hmark
    rw [hmark.1]
    simp [denied, NewPassingAdmissionResponse]

theorem admit_collaborator_failures_witness :
    ((Admit (podsUnreachable ⟨"Timeout", "request timed out"⟩ noDefault)
      (cluster (launcherPod "node-a") (vm1 "LiveMigrate" true "node-a" ""))
      (evictVm1 none)).value = ⟨true, none⟩) ∧
    ((memAdmitter noDefault).virtClient.Get ⟨[launcherPod "node-a"], []⟩ "ns" "vm1" =
        .error (notFound "vm1") ∧
      (Admit (memAdmitter noDefault) ⟨[launcherPod "node-a"], []⟩
        (evictVm1 none)).value.Allowed = false) ∧
    (Linked (patchFails ⟨"Timeout", "request timed out"⟩ noDefault)
        (cluster (launcherPod "node-a") (vm1 "LiveMigrate" true "node-a" ""))
        (evictVm1 none) (launcherPod "node-a") (vm1 "LiveMigrate" true "node-a" "") ∧
      (Admit (patchFails ⟨"Timeout", "request timed out"⟩ noDefault)
        (cluster (launcherPod "node-a") (vm1 "LiveMigrate" true "node-a" ""))
        (evictVm1 none)).value.Allowed = false) :=
  have hlinked : Linked (patchFails ⟨"Timeout", "request timed out"⟩ noDefault)
      (cluster (launcherPod "node-a") (vm1 "LiveMigrate" true "node-a" ""))
      (evictVm1 none) (launcherPod "node-a") (vm1 "LiveMigrate" true "node-a" "") :=
    ⟨rfl, rfl, "vm1", rfl, rfl⟩
  ⟨((admit_collaborator_failures (podsUnreachable ⟨"Timeout", "request timed out"⟩ noDefault)
      (cluster (launcherPod "node-a") (vm1 "LiveMigrate" true "node-a" ""))
      (evictVm1 none)).1 ⟨"Timeout", "request timed out"⟩ rfl).1,
   ⟨rfl, ((admit_collaborator_failures (memAdmitter noDefault) ⟨[launcherPod "node-a"], []⟩
      (evictVm1 none)).2.1 (launcherPod "node-a") "vm1" (notFound "vm1") rfl rfl rfl rfl).1⟩,
   ⟨hlinked, ((admit_collaborator_failures
      (patchFails ⟨"Timeout", "request timed out"⟩ noDefault)
      (cluster (launcherPod "node-a") (vm1 "LiveMigrate" true "node-a" ""))
      (evictVm1 none)).2.2 (launcherPod "node-a") (vm1 "LiveMigrate" true "node-a" "")
      "LiveMigrate" ⟨"Timeout", "request timed out"⟩ hlinked rfl (Or.inl ⟨rfl, rfl⟩)
      rfl rfl rfl).1⟩⟩

/-- Claim C8 fails for the pod fetch: the pod client answers every fetch with a timeout, an
error whose reason is not NotFound, and `Admit` returns the passing response for the pod of
a migratable LiveMigrate VMI. -/
theorem admit_pod_fetch_timeout_counterexample :
    (podsUnreachable ⟨"Timeout", "request timed out"⟩ noDefault).kubeClient.Get
      (cluster (launcherPod "node-a") (vm1 "LiveMigrate" true "node-a" ""))
      "ns" "virt-launcher-vm1" = .error ⟨"Timeout", "request timed out"⟩ ∧
    (⟨"Timeout", "request timed out"⟩ : Error).reason ≠ "NotFound" ∧
    (Admit (podsUnreachable ⟨"Timeout", "request timed out"⟩ noDefault)
      (cluster (launcherPod "node-a") (vm1 "LiveMigrate" true "node-a" ""))
      (evictVm1 none)).value.Allowed = true ∧
    (Admit (podsUnreachable ⟨"Timeout", "request timed out"⟩ noDefault)
      (cluster (launcherPod "node-a") (vm1 "LiveMigrate" true "node-a" ""))
      (evictVm1 none)).value = NewPassingAdmissionResponse :=
  ⟨rfl, by decide, rfl, rfl⟩

/-- Claim C9, amended. For the VMI `ns/vm1` with strategy LiveMigrateIfPossible, on
`node-a`, not marked for eviction and not migratable, evicting its pod on `node-a` yields
the passing response (allowed, no reason, no status code), no Patch, and an unchanged
store, for every cluster default and every dry-run flag. The 429 denial whose reason ends
in "not live-migratable" is the answer for the same VMI under strategy LiveMigrate, where
the store is unchanged as well. -/
theorem example_not_migratable (clusterConfig : ClusterConfig) (dryRun : Option Bool) :
    (Admit (memAdmitter clusterConfig)
      (cluster (launcherPod "node-a") (vm1 "LiveMigrateIfPossible" false "node-a" ""))
      (evictVm1 dryRun)).value = ⟨true, none⟩ ∧
    (Admit (memAdmitter clusterConfig)
      (cluster (launcherPod "node-a") (vm1 "LiveMigrateIfPossible" false "node-a" ""))
      (evictVm1 dryRun)).patches = [] ∧
    (Admit (memAdmitter clusterConfig)
      (cluster (launcherPod "node-a") (vm1 "LiveMigrateIfPossible" false "node-a" ""))
      (evictVm1 dryRun)).store =
      cluster (launcherPod "node-a") (vm1 "LiveMigrateIfPossible" false "node-a" "") ∧
    (Admit (memAdmitter clusterConfig)
      (cluster (launcherPod "node-a") (vm1 "LiveMigrate" false "node-a" ""))
      (evictVm1 dryRun)).value =
      ⟨false, some ⟨"VMI vm1 is configured with an eviction strategy but is " ++
        "not live-migratable", 429⟩⟩ ∧
    (Admit (memAdmitter clusterConfig)
      (cluster (launcherPod "node-a") (vm1 "LiveMigrate" false "node-a" ""))
      (evictVm1 dryRun)).store =
      cluster (launcherPod "node-a") (vm1 "LiveMigrate" false "node-a" "") :=
  ⟨rfl, rfl, rfl, rfl, rfl⟩

/-- Claim C9 fails as stated: for the VMI `ns/vm1` with strategy LiveMigrateIfPossible, on
`node-a`, not marked and not migratable, evicting its pod on `node-a` is allowed and the
response carries no status, so neither a reason nor the code 429. -/
theorem example_not_migratable_counterexample :
    (Admit (memAdmitter noDefault)
      (cluster (launcherPod "node-a") (vm1 "LiveMigrateIfPossible" false "node-a" ""))
      (evictVm1 none)).value.Allowed = true ∧
    (Admit (memAdmitter noDefault)
      (cluster (launcherPod "node-a") (vm1 "LiveMigrateIfPossible" false "node-a" ""))
      (evictVm1 none)).value.Result = none :=
  ⟨rfl, rfl⟩

/-- Claim C11. For every VMI with strategy LiveMigrateIfPossible that is migratable, not
marked for eviction and whose node is the evicted pod's node `n`, when the Patch succeeds
`Admit` returns exactly Allowed=false, code 429 and the message
`Eviction triggered evacuation of VMI "<ns>/<name>"`, and the one Patch it issued is the JSON
patch on that VMI that adds `n` as `/status/evacuationNodeName`. -/
theorem admit_ifPossible_migratable_marks {σ : Type} (admitter : PodEvictionAdmitter σ)
    (s : σ) (ar : AdmissionReview) (pod : Pod) (vmi : VirtualMachineInstance)
    (hlinked : Linked admitter s ar pod vmi)
    (hstrategy : VMIEvictionStrategy admitter.clusterConfig vmi =
      some EvictionStrategyLiveMigrateIfPossible)
    (hmigratable : IsMigratable vmi = true)
    (hunmarked : IsMarkedForEviction vmi = false)
    (hnode : vmi.NodeName = pod.NodeName)
    (hpatch : errOf (admitter.virtClient.Patch s vmi.Namespace vmi.Name JSONPatchType
      (patchData vmi.NodeName)
      ⟨if ar.Request.DryRun = some true then [DryRunAll] else []⟩).1 = none) :
    (Admit admitter s ar).value =
      ⟨false, some ⟨"Eviction triggered evacuation of VMI \"" ++
        vmi.Namespace ++ "/" ++ vmi.Name ++ "\"", 429⟩⟩ ∧
    (Admit admitter s ar).patches =
      [⟨vmi.Namespace, vmi.Name, "application/json-patch+json",
        "[\x7b \"op\": \"add\", \"path\": \"/status/evacuationNodeName\", \"value\": \"" ++
          pod.NodeName ++ "\" \x7d]",
        ⟨if ar.Request.DryRun = some true then [DryRunAll] else []⟩⟩] := by
  have hmark := Admit_marking admitter s ar pod vmi EvictionStrategyLiveMigrateIfPossible
    hlinked hstrategy (Or.inr (Or.inl ⟨rfl, hmigratable⟩)) hunmarked hnode
  rw [hpatch] at hmark
  refine ⟨?_, ?_⟩
  · rw [hmark.1]; rfl
  · rw [hmark.2.2, ← hnode]; rfl

theorem admit_ifPossible_migratable_marks_witness :
    Linked (memAdmitter noDefault)
      (cluster (launcherPod "node-a") (vm1 "LiveMigrateIfPossible" true "node-a" ""))
      (evictVm1 none) (launcherPod "node-a") (vm1 "LiveMigrateIfPossible" true "node-a" "") ∧
    (Admit (memAdmitter noDefault)
      (cluster (launcherPod "node-a") (vm1 "LiveMigrateIfPossible" true "node-a" ""))
      (evictVm1 none)).value =
      ⟨false, some ⟨"Eviction triggered evacuation of VMI \"ns/vm1\"", 429⟩⟩ ∧
    (Admit (memAdmitter noDefault)
      (cluster (launcherPod "node-a") (vm1 "LiveMigrateIfPossible" true "node-a" ""))
      (evictVm1 none)).patches =
      [⟨"ns", "vm1", "application/json-patch+json",
        "[\x7b \"op\": \"add\", \"path\": \"/status/evacuationNodeName\", \"value\": \"node-a\" \x7d]",
        ⟨[]⟩⟩] ∧
    (Admit (memAdmitter noDefault)
      (cluster (launcherPod "node-a") (vm1 "LiveMigrateIfPossible" true "node-a" ""))
      (evictVm1 none)).store.getVMI "ns" "vm1" =
      .ok (vm1 "LiveMigrateIfPossible" true "node-a" "node-a") :=
  have hlinked : Linked (memAdmitter noDefault)
      (cluster (launcherPod "node-a") (vm1 "LiveMigrateIfPossible" true "node-a" ""))
      (evictVm1 none) (launcherPod "node-a")
      (vm1 "LiveMigrateIfPossible" true "node-a" "") :=
    ⟨rfl, rfl, "vm1", rfl, rfl⟩
  have h := admit_ifPossible_migratable_marks (memAdmitter noDefault)
    (cluster (launcherPod "node-a") (vm1 "LiveMigrateIfPossible" true "node-a" ""))
    (evictVm1 none) (launcherPod "node-a") (vm1 "LiveMigrateIfPossible" true "node-a" "")
    hlinked rfl rfl rfl rfl rfl
  ⟨hlinked, h.1, h.2, rfl⟩

/-- Claim C12. When the pod fetch fails (the pod does not exist), or the pod exists but its
`kubevirt.io` label is not "virt-launcher", or it lacks the domain annotation, `Admit`
returns the passing response, fetches no VMI, issues no Patch and leaves the store as it
was. -/
theorem admit_not_applicable_passes {σ : Type} (admitter : PodEvictionAdmitter σ) (s : σ)
    (ar : AdmissionReview)
    (h : (∃ e, admitter.kubeClient.Get s ar.Request.Namespace ar.Request.Name = .error e) ∨
      (∃ pod, admitter.kubeClient.Get s ar.Request.Namespace ar.Request.Name = .ok pod ∧
        (pod.Labels.lookup AppLabel ≠ some "virt-launcher" ∨
          pod.Annotations.lookup DomainAnnotation = none))) :
    (Admit admitter s ar).value = NewPassingAdmissionResponse ∧
    (Admit admitter s ar).value.Allowed = true ∧
    (Admit admitter s ar).fetches = [] ∧
    (Admit admitter s ar).patches = [] ∧
    (Admit admitter s ar).store = s := by
  rcases h with ⟨e, hpod⟩ | ⟨pod, hpod, hlabel | hann⟩
  · simp [Admit, hpod, NewPassingAdmissionResponse]
  · have hlauncher : isVirtLauncher pod = false := by
      unfold isVirtLauncher
      cases hl : pod.Labels.lookup AppLabel with
      | none => simp
      | some v =>
        rw [hl] at hlabel
        simpa using hlabel
    simp [Admit, hpod, hlauncher, NewPassingAdmissionResponse]
  · by_cases hlauncher : isVirtLauncher pod = true
    · simp [Admit, hpod, hlauncher, hann, NewPassingAdmissionResponse]
    · simp only [Bool.not_eq_true] at hlauncher
      simp [Admit, hpod, hlauncher, NewPassingAdmissionResponse]

theorem admit_not_applicable_passes_witness :
    ((memAdmitter noDefault).kubeClient.Get ⟨[], [vm1 "LiveMigrate" true "node-a" ""]⟩
        "ns" "virt-launcher-vm1" = .error (notFound "virt-launcher-vm1") ∧
      (Admit (memAdmitter noDefault) ⟨[], [vm1 "LiveMigrate" true "node-a" ""]⟩
        (evictVm1 none)).value = ⟨true, none⟩ ∧
      (Admit (memAdmitter noDefault) ⟨[], [vm1 "LiveMigrate" true "node-a" ""]⟩
        (evictVm1 none)).fetches = []) ∧
    (handlerPod.Labels.lookup AppLabel ≠ some "virt-launcher" ∧
      (Admit (memAdmitter noDefault) (cluster handlerPod (vm1 "LiveMigrate" true "node-a" ""))
        ⟨⟨"ns", "virt-handler-x", none⟩⟩).value = ⟨true, none⟩ ∧
      (Admit (memAdmitter noDefault) (cluster handlerPod (vm1 "LiveMigrate" true "node-a" ""))
        ⟨⟨"ns", "virt-handler-x", none⟩⟩).fetches = []) ∧
    (unlinkedPod.Annotations.lookup DomainAnnotation = none ∧
      (Admit (memAdmitter noDefault) (cluster unlinkedPod (vm1 "LiveMigrate" true "node-a" ""))
        (evictVm1 none)).value = ⟨true, none⟩ ∧
      (Admit (memAdmitter noDefault) (cluster unlinkedPod (vm1 "LiveMigrate" true "node-a" ""))
        (evictVm1 none)).patches = []) :=
  have hlabel : handlerPod.Labels.lookup AppLabel ≠ some "virt-launcher" := by decide
  have h1 := admit_not_applicable_passes (memAdmitter noDefault)
    ⟨[], [vm1 "LiveMigrate" true "node-a" ""]⟩ (evictVm1 none)
    (Or.inl ⟨notFound "virt-launcher-vm1", rfl⟩)
  have h2 := admit_not_applicable_passes (memAdmitter noDefault)
    (cluster handlerPod (vm1 "LiveMigrate" true "node-a" "")) ⟨⟨"ns", "virt-handler-x", none⟩⟩
    (Or.inr ⟨handlerPod, rfl, Or.inl hlabel⟩)
  have h3 := admit_not_applicable_passes (memAdmitter noDefault)
    (cluster unlinkedPod (vm1 "LiveMigrate" true "node-a" "")) (evictVm1 none)
    (Or.inr ⟨unlinkedPod, rfl, Or.inr rfl⟩)
  ⟨⟨rfl, h1.1, h1.2.2.1⟩, ⟨hlabel, h2.1, h2.2.2.1⟩, ⟨rfl, h3.1, h3.2.2.2.1⟩⟩

/-- Claim C13. When the pod is a virt-launcher pod carrying the domain annotation and the
fetch of the VMI it names, in the request's namespace, fails with error `e`, `Admit` denies
with code 429 and the message "kubevirt failed getting the vmi: " followed by the text of
`e`, issues no Patch and leaves the store as it was. -/
theorem admit_vmi_fetch_error_denied {σ : Type} (admitter : PodEvictionAdmitter σ) (s : σ)
    (ar : AdmissionReview) (pod : Pod) (vmiName : String) (e : Error)
    (hpod : admitter.kubeClient.Get s ar.Request.Namespace ar.Request.Name = .ok pod)
    (hlauncher : isVirtLauncher pod = true)
    (hann : pod.Annotations.lookup DomainAnnotation = some vmiName)
    (hvmi : admitter.virtClient.Get s ar.Request.Namespace vmiName = .error e) :
    (Admit admitter s ar).value =
      ⟨false, some ⟨"kubevirt failed getting the vmi: " ++ e.text, 429⟩⟩ ∧
    (Admit admitter s ar).patches = [] ∧
    (Admit admitter s ar).store = s ∧
    (Admit admitter s ar).fetches = [(ar.Request.Namespace, vmiName)] := by
  simp [Admit, hpod, hlauncher, hann, hvmi, denied, StatusTooManyRequests]

theorem admit_vmi_fetch_error_denied_witness :
    (memAdmitter noDefault).virtClient.Get ⟨[launcherPod "node-a"], []⟩ "ns" "vm1" =
      .error (notFound "vm1") ∧
    (Admit (memAdmitter noDefault) ⟨[launcherPod "node-a"], []⟩ (evictVm1 none)).value =
      ⟨false, some ⟨"kubevirt failed getting the vmi: vm1 not found", 429⟩⟩ ∧
    (Admit (memAdmitter noDefault) ⟨[launcherPod "node-a"], []⟩ (evictVm1 none)).patches = [] :=
  have h := admit_vmi_fetch_error_denied (memAdmitter noDefault) ⟨[launcherPod "node-a"], []⟩
    (evictVm1 none) (launcherPod "node-a") "vm1" (notFound "vm1") rfl rfl rfl rfl
  ⟨rfl, h.1, h.2.1⟩

/-- Claim C15. Every response `Admit` returns is either the passing response (Allowed=true,
no result) or `denied m` for some message `m`, which is Allowed=false with
`Result.Message = m` and `Result.Code = 429`; so a response that is not allowed always
carries the code 429. -/
theorem admit_response_shape {σ : Type} (admitter : PodEvictionAdmitter σ) (s : σ)
    (ar : AdmissionReview) :
    NewPassingAdmissionResponse = ⟨true, none⟩ ∧
    (∀ m : String, denied m = ⟨false, some ⟨m, 429⟩⟩) ∧
    ((Admit admitter s ar).value = NewPassingAdmissionResponse ∨
      ∃ m, (Admit admitter s ar).value = denied m) ∧
    ((Admit admitter s ar).value.Allowed = false →
      ∃ m, (Admit admitter s ar).value.Result = some ⟨m, 429⟩) := by
  have hshape : (Admit admitter s ar).value = NewPassingAdmissionResponse ∨
      ∃ m, (Admit admitter s ar).value = denied m := by
    rcases Admit_cases admitter s ar with h | ⟨_, _, e, _, _, _, _, h, _⟩ |
      ⟨_, vmi, _, _, _, h, _⟩ | ⟨pod, vmi, es, hlinked, hstrategy, hcandidate, hum, hnode⟩
    · exact Or.inl h.1
    · exact Or.inr ⟨_, h⟩
    · exact Or.inr ⟨_, h⟩
    · have hmark := (Admit_marking admitter s ar pod vmi es hlinked hstrategy hcandidate
        hum hnode).1
      right
      rw [hmark]
      split
      · exact ⟨_, rfl⟩
      · exact ⟨_, rfl⟩
  refine ⟨rfl, fun _ => rfl, hshape, ?_⟩
  intro hdenied
  rcases hshape with h | ⟨m, h⟩
  · rw [h] at hdenied
    simp [NewPassingAdmissionResponse] at hdenied
  · exact ⟨m, by rw [h]; rfl⟩

/-- Claim C17. `markVMI ns name nodeName dryRun` issues exactly one Patch call, also when
that call fails: on the VMI `ns/name`, of JSON-patch type, with the body
`[{ "op": "add", "path": "/status/evacuationNodeName", "value": "<nodeName>" }]` and with
`DryRun = [All]` when `dryRun` is true and no dry-run option otherwise. It returns that
call's error: nil exactly when the Patch succeeded. -/
theorem markVMI_single_patch {σ : Type} (admitter : PodEvictionAdmitter σ) (s : σ)
    (ns name nodeName : String) (dryRun : Bool) :
    (markVMI admitter s ns name nodeName dryRun).patches =
      [⟨ns, name, "application/json-patch+json",
        "[\x7b \"op\": \"add\", \"path\": \"/status/evacuationNodeName\", \"value\": \"" ++
          nodeName ++ "\" \x7d]",
        ⟨if dryRun = true then ["All"] else []⟩⟩] ∧
    (markVMI admitter s ns name nodeName dryRun).value =
      errOf (admitter.virtClient.Patch s ns name "application/json-patch+json"
        ("[\x7b \"op\": \"add\", \"path\": \"/status/evacuationNodeName\", \"value\": \"" ++
          nodeName ++ "\" \x7d]")
        ⟨if dryRun = true then ["All"] else []⟩).1 ∧
    (markVMI admitter s ns name nodeName dryRun).store =
      (admitter.virtClient.Patch s ns name "application/json-patch+json"
        ("[\x7b \"op\": \"add\", \"path\": \"/status/evacuationNodeName\", \"value\": \"" ++
          nodeName ++ "\" \x7d]")
        ⟨if dryRun = true then ["All"] else []⟩).2 ∧
    ((markVMI admitter s ns name nodeName dryRun).value = none ↔
      ∃ v, (admitter.virtClient.Patch s ns name "application/json-patch+json"
        ("[\x7b \"op\": \"add\", \"path\": \"/status/evacuationNodeName\", \"value\": \"" ++
          nodeName ++ "\" \x7d]")
        ⟨if dryRun = true then ["All"] else []⟩).1 = .ok v) ∧
    (∀ e, (admitter.virtClient.Patch s ns name "application/json-patch+json"
        ("[\x7b \"op\": \"add\", \"path\": \"/status/evacuationNodeName\", \"value\": \"" ++
          nodeName ++ "\" \x7d]")
        ⟨if dryRun = true then ["All"] else []⟩).1 = .error e →
      (markVMI admitter s ns name nodeName dryRun).value = some e) := by
  cases dryRun <;>
    (simp only [markVMI, patchData, JSONPatchType, DryRunAll]
     refine ⟨by simp, by simp, by simp, ?_, ?_⟩
     · cases h : (admitter.virtClient.Patch s ns name "application/json-patch+json"
          ("[\x7b \"op\": \"add\", \"path\": \"/status/evacuationNodeName\", \"value\": \"" ++
            nodeName ++ "\" \x7d]") ⟨_⟩).1 <;> simp_all [errOf]
     · intro e he
       simp_all [errOf])

/-- Claim C19. For every input, `Admit` returns a denial if and only if the verdict of the
characterisation `DeniesSpec` holds: the pod was fetched, is a virt-launcher pod with a
domain annotation, and (i) the VMI fetch failed, or (ii) the strategy is LiveMigrate and the
VMI is not migratable, or (iii) the VMI is a marking candidate that is not marked and whose
node is the pod's node. In every other case it returns the passing response. The allowed
bit is the same for every dry-run flag and every behaviour of Patch. -/
theorem admit_verdict_characterised {σ : Type} (admitter : PodEvictionAdmitter σ) (s : σ)
    (ar : AdmissionReview) :
    ((Admit admitter s ar).value.Allowed = false ↔ DeniesSpec admitter s ar) ∧
    ((∃ m, (Admit admitter s ar).value = denied m) ↔ DeniesSpec admitter s ar) ∧
    ((Admit admitter s ar).value = NewPassingAdmissionResponse ↔ ¬ DeniesSpec admitter s ar) ∧
    (∀ (flag : Option Bool)
      (patch : σ → String → String → String → String → PatchOptions →
        Except Error VirtualMachineInstance × σ),
      (Admit { admitter with virtClient := { Get := admitter.virtClient.Get, Patch := patch } }
        s ⟨⟨ar.Request.Namespace, ar.Request.Name, flag⟩⟩).value.Allowed =
      (Admit admitter s ar).value.Allowed) := by
  have key : ∀ {τ : Type} (a : PodEvictionAdmitter τ) (t : τ) (r : AdmissionReview),
      ((Admit a t r).value = NewPassingAdmissionResponse ∧ ¬ DeniesSpec a t r) ∨
      ((∃ m, (Admit a t r).value = denied m) ∧ DeniesSpec a t r) := by
    intro τ a t r
    rcases Admit_cases a t r with h | ⟨pod, vmiName, e, hpod, hl, hann, hvmi, h, _⟩ |
      ⟨pod, vmi, hlinked, hstrategy, hm, h, _⟩ |
      ⟨pod, vmi, es, hlinked, hstrategy, hcandidate, hum, hnode⟩
    · exact Or.inl ⟨h.1, h.2.2.2⟩
    · exact Or.inr ⟨⟨_, h⟩, pod, hpod, hl, vmiName, hann, Or.inl ⟨e, hvmi⟩⟩
    · obtain ⟨hpod, hl, vmiName, hann, hvmi⟩ := hlinked
      exact Or.inr ⟨⟨_, h⟩, pod, hpod, hl, vmiName, hann,
        Or.inr ⟨vmi, hvmi, Or.inl ⟨hstrategy, hm⟩⟩⟩
    · have hmark := (Admit_marking a t r pod vmi es hlinked hstrategy hcandidate
        hum hnode).1
      obtain ⟨hpod, hl, vmiName, hann, hvmi⟩ := hlinked
      refine Or.inr ⟨?_, pod, hpod, hl, vmiName, hann,
        Or.inr ⟨vmi, hvmi, Or.inr ⟨es, hstrategy, hcandidate, hum, hnode⟩⟩⟩
      rw [hmark]
      split
      · exact ⟨_, rfl⟩
      · exact ⟨_, rfl⟩
  have allowed : ∀ {τ : Type} (a : PodEvictionAdmitter τ) (t : τ) (r : AdmissionReview),
      ((Admit a t r).value.Allowed = false ↔ DeniesSpec a t r) := by
    intro τ a t r
    rcases key a t r with ⟨h, hn⟩ | ⟨⟨m, h⟩, hd⟩
    · rw [h]
      simp [NewPassingAdmissionResponse, hn]
    · rw [h]
      simp [denied, hd]
  refine ⟨allowed admitter s ar, ?_, ?_, ?_⟩
  · rcases key admitter s ar with ⟨h, hn⟩ | ⟨hm, hd⟩
    · constructor
      · rintro ⟨m, hm⟩
        rw [h] at hm
        simp [NewPassingAdmissionResponse, denied] at hm
      · intro hd
        exact absurd hd hn
    · exact ⟨fun _ => hd, fun _ => hm⟩
  · rcases key admitter s ar with ⟨h, hn⟩ | ⟨⟨m, hm⟩, hd⟩
    · exact ⟨fun _ => hn, fun _ => h⟩
    · constructor
      · intro h
        rw [hm] at h
        simp [NewPassingAdmissionResponse, denied] at h
      · intro hn
        exact absurd hd hn
  · intro flag patch
    have h1 := allowed
      { admitter with virtClient := { Get := admitter.virtClient.Get, Patch := patch } }
      s ⟨⟨ar.Request.Namespace, ar.Request.Name, flag⟩⟩
    have h2 := allowed admitter s ar
    have hsame : DeniesSpec
        { admitter with virtClient := { Get := admitter.virtClient.Get, Patch := patch } }
        s ⟨⟨ar.Request.Namespace, ar.Request.Name, flag⟩⟩ ↔ DeniesSpec admitter s ar :=
      Iff.rfl
    cases hA : (Admit admitter s ar).value.Allowed <;>
      cases hB : (Admit
        { admitter with virtClient := { Get := admitter.virtClient.Get, Patch := patch } }
        s ⟨⟨ar.Request.Namespace, ar.Request.Name, flag⟩⟩).value.Allowed <;>
      simp_all

/-- Claim C20. Every `Admit` call issues at most one Patch; when it returns the passing
response, or any allowed response, it issued none; and every Patch it issues targets the
namespace and name of the VMI it fetched and writes a node name that is both that VMI's
`Status.NodeName` and the evicted pod's `Spec.NodeName`. -/
theorem admit_write_footprint {σ : Type} (admitter : PodEvictionAdmitter σ) (s : σ)
    (ar : AdmissionReview) :
    (Admit admitter s ar).patches.length ≤ 1 ∧
    ((Admit admitter s ar).value = NewPassingAdmissionResponse →
      (Admit admitter s ar).patches = []) ∧
    ((Admit admitter s ar).value.Allowed = true → (Admit admitter s ar).patches = []) ∧
    (∀ call ∈ (Admit admitter s ar).patches, ∃ pod vmi, Linked admitter s ar pod vmi ∧
      call.Namespace = vmi.Namespace ∧ call.Name = vmi.Name ∧
      call.data = patchData vmi.NodeName ∧ call.data = patchData pod.NodeName ∧
      vmi.NodeName = pod.NodeName) := by
  rcases Admit_cases admitter s ar with h | ⟨_, _, _, _, _, _, _, _, _, h⟩ |
    ⟨_, _, _, _, _, _, _, h⟩ | ⟨pod, vmi, es, hlinked, hstrategy, hcandidate, hum, hnode⟩
  · simp [h.2.2.1]
  · simp [h]
  · simp [h]
  · have hmark := Admit_marking admitter s ar pod vmi es hlinked hstrategy hcandidate
      hum hnode
    have hdenied : (Admit admitter s ar).value.Allowed = false := by
      rw [hmark.1]
      split <;> rfl
    refine ⟨by simp [hmark.2.2], ?_, ?_, ?_⟩
    · intro hpass
      rw [hpass] at hdenied
      simp [NewPassingAdmissionResponse] at hdenied
    · intro hallowed
      rw [hallowed] at hdenied
      cases hdenied
    · intro call hcall
      rw [hmark.2.2] at hcall
      simp only [List.mem_singleton] at hcall
      subst hcall
      exact ⟨pod, vmi, hlinked, rfl, rfl, rfl, by rw [hnode], hnode⟩

/-- Claim C14. Over the in-memory store: for every store state in which the VMI `ns/name`
has a set (non-empty) `evacuationNodeName` and for every eviction request, no Patch that
`Admit` issues targets that VMI, a request whose pod is linked to that VMI makes `Admit`
issue no Patch at all and leave the store as it was, and after the call the stored VMI is
the one stored before, so its `evacuationNodeName` is never overwritten. -/
theorem admit_set_once (clusterConfig : ClusterConfig) (s : MemStore) (ar : AdmissionReview)
    (ns name : String) (v : VirtualMachineInstance)
    (hget : s.getVMI ns name = .ok v)
    (hset : v.EvacuationNodeName ≠ "") :
    (∀ call ∈ (Admit (memAdmitter clusterConfig) s ar).patches,
      ¬ (call.Namespace = ns ∧ call.Name = name)) ∧
    (∀ pod, Linked (memAdmitter clusterConfig) s ar pod v →
      (Admit (memAdmitter clusterConfig) s ar).patches = [] ∧
      (Admit (memAdmitter clusterConfig) s ar).store = s) ∧
    (Admit (memAdmitter clusterConfig) s ar).store.getVMI ns name = .ok v := by
  rcases Admit_cases (memAdmitter clusterConfig) s ar with h | ⟨_, _, _, _, _, _, _, _, h⟩ |
    ⟨_, _, _, _, _, _, h⟩ | ⟨pod, vmi, es, hlinked, hstrategy, hcandidate, hum, hnode⟩
  · rw [h.2.1, h.2.2.1]
    exact ⟨by simp, fun _ _ => ⟨rfl, rfl⟩, hget⟩
  · rw [h.1, h.2]
    exact ⟨by simp, fun _ _ => ⟨rfl, rfl⟩, hget⟩
  · rw [h.1, h.2]
    exact ⟨by simp, fun _ _ => ⟨rfl, rfl⟩, hget⟩
  · have hmark := Admit_marking (memAdmitter clusterConfig) s ar pod vmi es hlinked hstrategy
      hcandidate hum hnode
    obtain ⟨hpod, hlauncher, vmiName, hann, hvmi⟩ := hlinked
    have hkey := getVMI_key s ar.Request.Namespace vmiName vmi hvmi
    have hempty : vmi.EvacuationNodeName = "" := by
      simpa [IsMarkedForEviction] using hum
    have hne : ¬ (vmi.Namespace = ns ∧ vmi.Name = name) := by
      rintro ⟨h1, h2⟩
      have hsame : s.getVMI ns name = .ok vmi := by
        rw [← h1, ← h2, hkey.1, hkey.2]; exact hvmi
      rw [hget] at hsame
      cases hsame
      exact hset hempty
    refine ⟨?_, ?_, ?_⟩
    · intro call hcall
      rw [hmark.2.2] at hcall
      simp only [List.mem_singleton] at hcall
      subst hcall
      exact hne
    · intro pod2 hlinked2
      obtain ⟨hpod2, _, vmiName2, hann2, hvmi2⟩ := hlinked2
      rw [hpod] at hpod2
      cases hpod2
      rw [hann] at hann2
      cases hann2
      rw [hvmi] at hvmi2
      cases hvmi2
      exact absurd hempty hset
    · rw [hmark.2.1]
      exact (patchVMI_other s vmi.Namespace vmi.Name _ _ _ ns name hne).trans hget

theorem admit_set_once_witness :
    (cluster (launcherPod "node-a") (vm1 "LiveMigrate" true "node-a" "node-a")).getVMI
      "ns" "vm1" = .ok (vm1 "LiveMigrate" true "node-a" "node-a") ∧
    (vm1 "LiveMigrate" true "node-a" "node-a").EvacuationNodeName ≠ "" ∧
    (Admit (memAdmitter noDefault)
      (cluster (launcherPod "node-a") (vm1 "LiveMigrate" true "node-a" "node-a"))
      (evictVm1 none)).patches = [] ∧
    (Admit (memAdmitter noDefault)
      (cluster (launcherPod "node-a") (vm1 "LiveMigrate" true "node-a" "node-a"))
      (evictVm1 none)).store.getVMI "ns" "vm1" =
      .ok (vm1 "LiveMigrate" true "node-a" "node-a") :=
  have hset : (vm1 "LiveMigrate" true "node-a" "node-a").EvacuationNodeName ≠ "" := by decide
  have h := admit_set_once noDefault
    (cluster (launcherPod "node-a") (vm1 "LiveMigrate" true "node-a" "node-a"))
    (evictVm1 none) "ns" "vm1" (vm1 "LiveMigrate" true "node-a" "node-a") rfl hset
  ⟨rfl, hset, (h.2.1 (launcherPod "node-a") ⟨rfl, rfl, "vm1", rfl, rfl⟩).1, h.2.2⟩

/-- Claim C18, amended. For every marking candidate whose VMI has no recorded node
(`Status.NodeName` is empty), when the evicted pod's node name is not empty, or the VMI is
already marked for eviction, the marking guard fails and `Admit` returns the passing
response without a Patch. -/
theorem admit_unscheduled_passes {σ : Type} (admitter : PodEvictionAdmitter σ) (s : σ)
    (ar : AdmissionReview) (pod : Pod) (vmi : VirtualMachineInstance)
    (evictionStrategy : EvictionStrategy)
    (hlinked : Linked admitter s ar pod vmi)
    (hstrategy : VMIEvictionStrategy admitter.clusterConfig vmi = some evictionStrategy)
    (hcandidate : MarkingCandidate evictionStrategy vmi)
    (hunscheduled : vmi.NodeName = "")
    (hpod : pod.NodeName ≠ "" ∨ IsMarkedForEviction vmi = true) :
    (Admit admitter s ar).value = NewPassingAdmissionResponse ∧
    (Admit admitter s ar).value.Allowed = true ∧
    (Admit admitter s ar).patches = [] := by
  have hguard : IsMarkedForEviction vmi = true ∨ vmi.NodeName ≠ pod.NodeName := by
    rcases hpod with h | h
    · right
      rw [hunscheduled]
      exact fun heq => h heq.symm
    · exact Or.inl h
  have hpass := Admit_guard_fails admitter s ar pod vmi evictionStrategy hlinked hstrategy
    hcandidate hguard
  refine ⟨hpass.1, ?_, hpass.2.2⟩
  rw [hpass.1]
  rfl

theorem admit_unscheduled_passes_witness :
    Linked (memAdmitter noDefault)
      (cluster (launcherPod "node-a") (vm1 "External" true "" ""))
      (evictVm1 none) (launcherPod "node-a") (vm1 "External" true "" "") ∧
    MarkingCandidate "External" (vm1 "External" true "" "") ∧
    (vm1 "External" true "" "").NodeName = "" ∧
    (launcherPod "node-a").NodeName ≠ "" ∧
    (Admit (memAdmitter noDefault)
      (cluster (launcherPod "node-a") (vm1 "External" true "" ""))
      (evictVm1 none)).value = ⟨true, none⟩ ∧
    (Admit (memAdmitter noDefault)
      (cluster (launcherPod "node-a") (vm1 "External" true "" ""))
      (evictVm1 none)).patches = [] :=
  have hlinked : Linked (memAdmitter noDefault)
      (cluster (launcherPod "node-a") (vm1 "External" true "" ""))
      (evictVm1 none) (launcherPod "node-a") (vm1 "External" true "" "") :=
    ⟨rfl, rfl, "vm1", rfl, rfl⟩
  have hcandidate : MarkingCandidate "External" (vm1 "External" true "" "") :=
    Or.inr (Or.inr rfl)
  have hnode : (launcherPod "node-a").NodeName ≠ "" := by decide
  have h := admit_unscheduled_passes (memAdmitter noDefault)
    (cluster (launcherPod "node-a") (vm1 "External" true "" ""))
    (evictVm1 none) (launcherPod "node-a") (vm1 "External" true "" "") "External"
    hlinked rfl hcandidate rfl (Or.inl hnode)
  ⟨hlinked, hcandidate, rfl, hnode, h.1, h.2.2⟩

/-- Claim C18 fails when the pod has no node either: the VMI `ns/vm1` (LiveMigrateIfPossible,
migratable, not marked) has an empty `Status.NodeName` and its pod an empty `Spec.NodeName`;
the guard compares two equal strings, so `Admit` issues a Patch that writes the empty node
name and denies the eviction. -/
theorem admit_unscheduled_empty_pod_node_counterexample :
    Linked (memAdmitter noDefault)
      (cluster (launcherPod "") (vm1 "LiveMigrateIfPossible" true "" ""))
      (evictVm1 none) (launcherPod "") (vm1 "LiveMigrateIfPossible" true "" "") ∧
    MarkingCandidate "LiveMigrateIfPossible" (vm1 "LiveMigrateIfPossible" true "" "") ∧
    (vm1 "LiveMigrateIfPossible" true "" "").NodeName = "" ∧
    (launcherPod "").NodeName = "" ∧
    (Admit (memAdmitter noDefault)
      (cluster (launcherPod "") (vm1 "LiveMigrateIfPossible" true "" ""))
      (evictVm1 none)).value =
      ⟨false, some ⟨"Eviction triggered evacuation of VMI \"ns/vm1\"", 429⟩⟩ ∧
    (Admit (memAdmitter noDefault)
      (cluster (launcherPod "") (vm1 "LiveMigrateIfPossible" true "" ""))
      (evictVm1 none)).patches = [⟨"ns", "vm1", JSONPatchType, patchData "", ⟨[]⟩⟩] :=
  ⟨⟨rfl, rfl, "vm1", rfl, rfl⟩, Or.inr (Or.inl ⟨rfl, rfl⟩), rfl, rfl, rfl, rfl⟩

/-- Claim C16, amended. Over the in-memory store, take two `Admit` calls for the same
eviction request (not a dry run) against the same unmarked, mark-eligible VMI whose node is
the pod's non-empty node, the first call's Patch succeeding. The first call issues one
Patch and the VMI is then marked with the pod's node. A second call that fetches the VMI
after that Patch observes the mark, returns the passing response and issues no Patch. A
second call that fetched pod and VMI before that Patch, and whose Patch reaches the store
after it, issues the same Patch, which succeeds too, and denies; the VMI is still marked
with the same node, as after the first call alone. -/
theorem admit_two_calls (clusterConfig : ClusterConfig) (s : MemStore)
    (ar : AdmissionReview) (pod : Pod) (vmi : VirtualMachineInstance)
    (evictionStrategy : EvictionStrategy)
    (hlinked : Linked (memAdmitter clusterConfig) s ar pod vmi)
    (hstrategy : VMIEvictionStrategy clusterConfig vmi = some evictionStrategy)
    (hcandidate : MarkingCandidate evictionStrategy vmi)
    (hunmarked : IsMarkedForEviction vmi = false)
    (hnode : vmi.NodeName = pod.NodeName)
    (hpersist : ar.Request.DryRun ≠ some true)
    (hpatch : errOf (s.patchVMI vmi.Namespace vmi.Name JSONPatchType
      (patchData vmi.NodeName) ⟨[]⟩).1 = none)
    (hnonempty : pod.NodeName ≠ "") :
    (Admit (memAdmitter clusterConfig) s ar).patches =
      [⟨vmi.Namespace, vmi.Name, JSONPatchType, patchData pod.NodeName, ⟨[]⟩⟩] ∧
    (Admit (memAdmitter clusterConfig) s ar).store.getVMI vmi.Namespace vmi.Name =
      .ok { vmi with EvacuationNodeName := pod.NodeName } ∧
    (Admit (memAdmitter clusterConfig)
      (Admit (memAdmitter clusterConfig) s ar).store ar).value = NewPassingAdmissionResponse ∧
    (Admit (memAdmitter clusterConfig)
      (Admit (memAdmitter clusterConfig) s ar).store ar).patches = [] ∧
    (Admit (staleReads s clusterConfig)
      (Admit (memAdmitter clusterConfig) s ar).store ar).patches =
      [⟨vmi.Namespace, vmi.Name, JSONPatchType, patchData pod.NodeName, ⟨[]⟩⟩] ∧
    errOf ((Admit (memAdmitter clusterConfig) s ar).store.patchVMI vmi.Namespace vmi.Name
      JSONPatchType (patchData pod.NodeName) ⟨[]⟩).1 = none ∧
    (Admit (staleReads s clusterConfig)
      (Admit (memAdmitter clusterConfig) s ar).store ar).value.Allowed = false ∧
    (Admit (staleReads s clusterConfig)
      (Admit (memAdmitter clusterConfig) s ar).store ar).store.getVMI vmi.Namespace vmi.Name =
      .ok { vmi with EvacuationNodeName := pod.NodeName } := by
  have hfirst := Admit_mark_store clusterConfig s ar pod vmi evictionStrategy hlinked
    hstrategy hcandidate hunmarked hnode hpersist hpatch
  have hstale : Linked (staleReads s clusterConfig)
      (Admit (memAdmitter clusterConfig) s ar).store ar pod vmi := hlinked
  have hmark := Admit_marking (staleReads s clusterConfig)
    (Admit (memAdmitter clusterConfig) s ar).store ar pod vmi evictionStrategy hstale
    hstrategy hcandidate hunmarked hnode
  simp only [hpersist, if_false] at hmark
  obtain ⟨hpod, hlauncher, vmiName, hann, hvmi⟩ := hlinked
  have hkey := getVMI_key s ar.Request.Namespace vmiName vmi hvmi
  have hget : s.getVMI vmi.Namespace vmi.Name = .ok vmi := by
    rw [hkey.1, hkey.2]; exact hvmi
  have hplain := (patchVMI_ok_iff s vmi.Namespace vmi.Name vmi.NodeName ⟨[]⟩ vmi hget).1 hpatch
  have hagain : errOf ((Admit (memAdmitter clusterConfig) s ar).store.patchVMI
      vmi.Namespace vmi.Name JSONPatchType (patchData vmi.NodeName) ⟨[]⟩).1 = none :=
    (patchVMI_ok_iff _ vmi.Namespace vmi.Name vmi.NodeName ⟨[]⟩ _ hfirst.2.2.1).2 hplain
  have hstored := patchVMI_persists (Admit (memAdmitter clusterConfig) s ar).store
    vmi.Namespace vmi.Name vmi.NodeName _ hfirst.2.2.1 hagain
  have hlinked2 : Linked (memAdmitter clusterConfig)
      (Admit (memAdmitter clusterConfig) s ar).store ar pod
      { vmi with EvacuationNodeName := vmi.NodeName } := by
    refine ⟨?_, hlauncher, vmiName, hann, ?_⟩
    · exact (getPod_congr s _ _ _ hfirst.2.2.2).trans hpod
    · show (Admit (memAdmitter clusterConfig) s ar).store.getVMI ar.Request.Namespace vmiName = _
      rw [← hkey.1, ← hkey.2]
      exact hfirst.2.2.1
  have hmarked : IsMarkedForEviction { vmi with EvacuationNodeName := vmi.NodeName } = true := by
    simp [IsMarkedForEviction, hnode, hnonempty]
  have hsecond := Admit_guard_fails (memAdmitter clusterConfig)
    (Admit (memAdmitter clusterConfig) s ar).store ar pod
    { vmi with EvacuationNodeName := vmi.NodeName } evictionStrategy hlinked2 hstrategy
    hcandidate (Or.inl hmarked)
  have hagain2 : errOf ((staleReads s clusterConfig).virtClient.Patch
      (Admit (memAdmitter clusterConfig) s ar).store vmi.Namespace vmi.Name JSONPatchType
      (patchData vmi.NodeName) ⟨[]⟩).1 = none := hagain
  rw [hagain2] at hmark
  rw [← hnode]
  refine ⟨hfirst.2.1, hfirst.2.2.1, hsecond.1, hsecond.2.2, hmark.2.2, hagain, ?_, ?_⟩
  · rw [hmark.1]; rfl
  · rw [hmark.2.1]; exact hstored.1

theorem admit_two_calls_witness :
    Linked (memAdmitter noDefault)
      (cluster (launcherPod "node-a") (vm1 "External" true "node-a" ""))
      (evictVm1 none) (launcherPod "node-a") (vm1 "External" true "node-a" "") ∧
    MarkingCandidate "External" (vm1 "External" true "node-a" "") ∧
    (Admit (memAdmitter noDefault)
      (Admit (memAdmitter noDefault)
        (cluster (launcherPod "node-a") (vm1 "External" true "node-a" ""))
        (evictVm1 none)).store (evictVm1 none)).value = ⟨true, none⟩ ∧
    (Admit (staleReads (cluster (launcherPod "node-a") (vm1 "External" true "node-a" ""))
        noDefault)
      (Admit (memAdmitter noDefault)
        (cluster (launcherPod "node-a") (vm1 "External" true "node-a" ""))
        (evictVm1 none)).store (evictVm1 none)).store.getVMI "ns" "vm1" =
      .ok (vm1 "External" true "node-a" "node-a") :=
  have hlinked : Linked (memAdmitter noDefault)
      (cluster (launcherPod "node-a") (vm1 "External" true "node-a" ""))
      (evictVm1 none) (launcherPod "node-a") (vm1 "External" true "node-a" "") :=
    ⟨rfl, rfl, "vm1", rfl, rfl⟩
  have hcandidate : MarkingCandidate "External" (vm1 "External" true "node-a" "") :=
    Or.inr (Or.inr rfl)
  have h := admit_two_calls noDefault
    (cluster (launcherPod "node-a") (vm1 "External" true "node-a" ""))
    (evictVm1 none) (launcherPod "node-a") (vm1 "External" true "node-a" "") "External"
    hlinked rfl hcandidate rfl rfl (by decide) rfl (by decide)
  ⟨hlinked, hcandidate, h.2.2.1, h.2.2.2.2.2.2.2⟩

/-- Claim C16 fails when both calls fetch before either Patch: for the VMI `ns/vm1`
(LiveMigrate, migratable, not marked, on `node-a` like its pod) the first call issues a
Patch that succeeds; the second call, whose fetches were answered before that Patch, issues
the same Patch on the store the first call left, that Patch succeeds as well, and the second
call denies instead of passing. Both calls issued a successful Patch. -/
theorem admit_two_calls_counterexample :
    (Admit (memAdmitter noDefault)
      (cluster (launcherPod "node-a") (vm1 "LiveMigrate" true "node-a" ""))
      (evictVm1 none)).patches = [⟨"ns", "vm1", JSONPatchType, patchData "node-a", ⟨[]⟩⟩] ∧
    errOf ((cluster (launcherPod "node-a") (vm1 "LiveMigrate" true "node-a" "")).patchVMI
      "ns" "vm1" JSONPatchType (patchData "node-a") ⟨[]⟩).1 = none ∧
    (Admit (staleReads (cluster (launcherPod "node-a") (vm1 "LiveMigrate" true "node-a" ""))
        noDefault)
      (Admit (memAdmitter noDefault)
        (cluster (launcherPod "node-a") (vm1 "LiveMigrate" true "node-a" ""))
        (evictVm1 none)).store (evictVm1 none)).patches =
      [⟨"ns", "vm1", JSONPatchType, patchData "node-a", ⟨[]⟩⟩] ∧
    errOf ((Admit (memAdmitter noDefault)
      (cluster (launcherPod "node-a") (vm1 "LiveMigrate" true "node-a" ""))
      (evictVm1 none)).store.patchVMI
      "ns" "vm1" JSONPatchType (patchData "node-a") ⟨[]⟩).1 = none ∧
    (Admit (staleReads (cluster (launcherPod "node-a") (vm1 "LiveMigrate" true "node-a" ""))
        noDefault)
      (Admit (memAdmitter noDefault)
        (cluster (launcherPod "node-a") (vm1 "LiveMigrate" true "node-a" ""))
        (evictVm1 none)).store (evictVm1 none)).value =
      ⟨false, some ⟨"Eviction triggered evacuation of VMI \"ns/vm1\"", 429⟩⟩ :=
  ⟨rfl, rfl, rfl, rfl, rfl⟩

/-! ## Instances of the unconditional properties -/

theorem admit_response_shape_witness :
    (Admit (memAdmitter noDefault)
      (cluster (launcherPod "node-a") (vm1 "LiveMigrate" false "node-a" ""))
      (evictVm1 none)).value.Allowed = false ∧
    ∃ m, (Admit (memAdmitter noDefault)
      (cluster (launcherPod "node-a") (vm1 "LiveMigrate" false "node-a" ""))
      (evictVm1 none)).value.Result = some ⟨m, 429⟩ :=
  ⟨rfl, (admit_response_shape (memAdmitter noDefault)
    (cluster (launcherPod "node-a") (vm1 "LiveMigrate" false "node-a" ""))
    (evictVm1 none)).2.2.2 rfl⟩

theorem markVMI_single_patch_witness :
    (markVMI (patchFails ⟨"Timeout", "request timed out"⟩ noDefault)
      (cluster (launcherPod "node-a") (vm1 "External" true "node-a" ""))
      "ns" "vm1" "node-a" true).patches =
      [⟨"ns", "vm1", "application/json-patch+json",
        "[\x7b \"op\": \"add\", \"path\": \"/status/evacuationNodeName\", \"value\": \"node-a\" \x7d]",
        ⟨["All"]⟩⟩] ∧
    (markVMI (patchFails ⟨"Timeout", "request timed out"⟩ noDefault)
      (cluster (launcherPod "node-a") (vm1 "External" true "node-a" ""))
      "ns" "vm1" "node-a" true).value = some ⟨"Timeout", "request timed out"⟩ ∧
    (markVMI (memAdmitter noDefault)
      (cluster (launcherPod "node-a") (vm1 "External" true "node-a" ""))
      "ns" "vm1" "node-a" false).value = none :=
  have h := markVMI_single_patch (patchFails ⟨"Timeout", "request timed out"⟩ noDefault)
    (cluster (launcherPod "node-a") (vm1 "External" true "node-a" ""))
    "ns" "vm1" "node-a" true
  have h2 := markVMI_single_patch (memAdmitter noDefault)
    (cluster (launcherPod "node-a") (vm1 "External" true "node-a" ""))
    "ns" "vm1" "node-a" false
  ⟨h.1, h.2.2.2.2 ⟨"Timeout", "request timed out"⟩ rfl,
    h2.2.2.2.1.2 ⟨vm1 "External" true "node-a" "node-a", rfl⟩⟩

theorem admit_verdict_characterised_witness :
    DeniesSpec (memAdmitter noDefault)
      (cluster (launcherPod "node-a") (vm1 "LiveMigrate" false "node-a" ""))
      (evictVm1 none) ∧
    (Admit (memAdmitter noDefault)
      (cluster (launcherPod "node-a") (vm1 "LiveMigrate" false "node-a" ""))
      (evictVm1 none)).value.Allowed = false ∧
    ¬ DeniesSpec (memAdmitter noDefault)
      (cluster (launcherPod "node-a") (vm1 "LiveMigrateIfPossible" false "node-a" ""))
      (evictVm1 none) ∧
    (Admit (memAdmitter noDefault)
      (cluster (launcherPod "node-a") (vm1 "LiveMigrateIfPossible" false "node-a" ""))
      (evictVm1 none)).value = NewPassingAdmissionResponse :=
  have hdenies : DeniesSpec (memAdmitter noDefault)
      (cluster (launcherPod "node-a") (vm1 "LiveMigrate" false "node-a" ""))
      (evictVm1 none) :=
    ⟨launcherPod "node-a", rfl, rfl, "vm1", rfl,
      Or.inr ⟨vm1 "LiveMigrate" false "node-a" "", rfl, Or.inl ⟨rfl, rfl⟩⟩⟩
  ⟨hdenies,
    (admit_verdict_characterised (memAdmitter noDefault)
      (cluster (launcherPod "node-a") (vm1 "LiveMigrate" false "node-a" ""))
      (evictVm1 none)).1.2 hdenies,
    (admit_verdict_characterised (memAdmitter noDefault)
      (cluster (launcherPod "node-a") (vm1 "LiveMigrateIfPossible" false "node-a" ""))
      (evictVm1 none)).2.2.1.1 rfl,
    rfl⟩

theorem admit_write_footprint_witness :
    (Admit (memAdmitter noDefault)
      (cluster (launcherPod "node-a") (vm1 "External" true "node-a" ""))
      (evictVm1 none)).patches =
      [⟨"ns", "vm1", JSONPatchType, patchData "node-a", ⟨[]⟩⟩] ∧
    (Admit (memAdmitter noDefault)
      (cluster (launcherPod "node-a") (vm1 "External" true "node-a" ""))
      (evictVm1 none)).patches.length ≤ 1 ∧
    (∃ pod vmi, Linked (memAdmitter noDefault)
      (cluster (launcherPod "node-a") (vm1 "External" true "node-a" ""))
      (evictVm1 none) pod vmi ∧
      "ns" = vmi.Namespace ∧ "vm1" = vmi.Name ∧
      patchData "node-a" = patchData vmi.NodeName ∧
      patchData "node-a" = patchData pod.NodeName ∧ vmi.NodeName = pod.NodeName) ∧
    (Admit (memAdmitter noDefault)
      (cluster (launcherPod "node-a") (vm1 "External" true "node-a" "node-a"))
      (evictVm1 none)).patches = [] :=
  have h := admit_write_footprint (memAdmitter noDefault)
    (cluster (launcherPod "node-a") (vm1 "External" true "node-a" ""))
    (evictVm1 none)
  have h2 := admit_write_footprint (memAdmitter noDefault)
    (cluster (launcherPod "node-a") (vm1 "External" true "node-a" "node-a"))
    (evictVm1 none)
  ⟨rfl, h.1,
    h.2.2.2 ⟨"ns", "vm1", JSONPatchType, patchData "node-a", ⟨[]⟩⟩ (List.mem_singleton.2 rfl),
    h2.2.1 rfl⟩

end admitters
